import Mathlib

/-!
Shallow embedding of the simulation core of the tankgame_online repository
(shared kinematics, server Player / GameWorld damage and respawn logic,
MapGenerator, SpawnManager, GameRoom admission, AIPlayer factory), together
with theorems settling the frozen specification claims.

Numbers: the source runs on IEEE-754 doubles.  The embedding works over `ℚ`
(and `ℤ` for the 32-bit integer operations of the seeded RNG and hash), and
keeps the transcendental primitives of the JS `Math` object abstract as a
`JSMath` record of `ℚ → ℚ` functions.  A theorem quantifying over every
`JSMath` therefore holds for any implementation of those primitives, the
double-precision one included.  `Math.PI` is embedded as the exact rational
value of the IEEE-754 double `3.141592653589793`.
-/

namespace TankGame

/-- Abstract interface to the transcendental functions of the JS `Math`
object used by the source (`Math.sqrt`, `Math.sin`, `Math.cos`, `Math.pow`,
`Math.exp`, `Math.tan`). -/
structure JSMath where
  sqrt : ℚ → ℚ
  sin : ℚ → ℚ
  cos : ℚ → ℚ
  pow : ℚ → ℚ → ℚ
  exp : ℚ → ℚ
  tan : ℚ → ℚ

/-- The exact rational value of the IEEE-754 double closest to π
(`Math.PI = 884279719003555 / 2^48`). -/
def piJS : ℚ := 884279719003555 / 281474976710656

/-- `Vec3` from `shared/src/types.ts` (fields x, y, z). -/
structure Vec3 where
  x : ℚ
  y : ℚ
  z : ℚ
deriving DecidableEq

/-- `Vec3.zero()`. -/
def Vec3.zero : Vec3 := ⟨0, 0, 0⟩

/-- `Vec3.add` (componentwise sum; the source mutates in place, the embedding
returns the new value). -/
def Vec3.add (a b : Vec3) : Vec3 := ⟨a.x + b.x, a.y + b.y, a.z + b.z⟩

/-- `Vec3.multiplyScalar`. -/
def Vec3.multiplyScalar (a : Vec3) (s : ℚ) : Vec3 := ⟨a.x * s, a.y * s, a.z * s⟩

/-- `Vec3.lengthSq`. -/
def Vec3.lengthSq (a : Vec3) : ℚ := a.x * a.x + a.y * a.y + a.z * a.z

/-- `Vec3.length = Math.sqrt(lengthSq)`. -/
def Vec3.length (m : JSMath) (a : Vec3) : ℚ := m.sqrt a.lengthSq

/-- `Vec3.normalize`: divide by the length when it is positive, otherwise
leave the vector unchanged. -/
def Vec3.normalize (m : JSMath) (a : Vec3) : Vec3 :=
  let len := a.length m
  if 0 < len then a.multiplyScalar (1 / len) else a

/-- `Vec3.distanceToSq`. -/
def Vec3.distanceToSq (a b : Vec3) : ℚ :=
  (a.x - b.x) * (a.x - b.x) + (a.y - b.y) * (a.y - b.y) + (a.z - b.z) * (a.z - b.z)

/-- `Vec3.distanceTo = Math.sqrt(distanceToSq)`. -/
def Vec3.distanceTo (m : JSMath) (a b : Vec3) : ℚ := m.sqrt (a.distanceToSq b)

/-! Constants from `shared/src/constants.ts`. -/

def GRAVITY : ℚ := 9.81
def TANK_MAX_SPEED : ℚ := 14.59
def TANK_ACCELERATION : ℚ := 9.72
def TANK_REVERSE_FACTOR : ℚ := 0.6
def TANK_TURN_RATE : ℚ := 1.5
def TANK_DAMPING : ℚ := 0.985
def TURRET_TURN_RATE : ℚ := 2.0
def TURRET_YAW_MAX : ℚ := piJS * 0.75
def GUN_PITCH_MIN : ℚ := -0.15
def GUN_PITCH_MAX : ℚ := 0.5
def MUZZLE_VELOCITY : ℚ := 80
def RELOAD_TIME : ℚ := 2500
def PROJECTILE_TTL : ℚ := 5000
def SPLASH_RADIUS : ℚ := 3
def SPLASH_DAMAGE_FACTOR : ℚ := 0.5
def DIRECT_HIT_DAMAGE : ℚ := 20
def TANK_MAX_HP : ℚ := 100
def PROJECTILE_COLLISION_RADIUS : ℚ := 0.5
def TANK_COLLISION_RADIUS : ℚ := 2.5
def MAX_PLAYERS : ℕ := 10
def MIN_PLAYERS : ℕ := 2
def RESPAWN_DELAY : ℚ := 4000
def TICK_RATE : ℚ := 60
def TICK_INTERVAL : ℚ := 1000 / 60
def MAP_WIDTH : ℚ := 400
def MAP_DEPTH : ℚ := 400
def HEIGHTMAP_RESOLUTION : ℕ := 128
def MAX_SLOPE : ℚ := 0.6
def PERTURBATION_AMPLITUDE : ℚ := 5
def SPAWN_CANDIDATE_COUNT : ℕ := 20
def SPAWN_TOP_K : ℕ := 5
def IDEAL_SPAWN_DISTANCE : ℚ := 60
def SPAWN_DISTANCE_SIGMA : ℚ := 20
def COVER_SEARCH_RADIUS : ℚ := 15
def SPAWN_COOLDOWN_RADIUS : ℚ := 20
def SPAWN_WEIGHT_DISTANCE : ℚ := 1.0
def SPAWN_WEIGHT_LOS : ℚ := 2.0
def SPAWN_WEIGHT_COVER : ℚ := 0.8
def SPAWN_WEIGHT_FLOW : ℚ := 0.5
def SPAWN_WEIGHT_RECENT : ℚ := 1.5

/-! Utility functions from `shared/src/protocol.ts`. -/

/-- `clamp(value, min, max) = Math.max(min, Math.min(max, value))`. -/
def clamp (value lo hi : ℚ) : ℚ := max lo (min hi value)

/-- `Math.sign`. -/
def jsSign (q : ℚ) : ℚ := if 0 < q then 1 else if q < 0 then -1 else 0

/-- `normalizeAngle`: the source loops `while (angle > π) angle -= 2π;
while (angle < -π) angle += 2π`.  This is the closed form of those two
loops: the number of subtractions (resp. additions) performed is the
ceiling written below, so the result lands in `(-π, π]` (resp. `[-π, π)`). -/
def normalizeAngle (angle : ℚ) : ℚ :=
  if piJS < angle then
    angle - 2 * piJS * ((⌈(angle - piJS) / (2 * piJS)⌉ : ℤ) : ℚ)
  else if angle < -piJS then
    angle + 2 * piJS * ((⌈(-piJS - angle) / (2 * piJS)⌉ : ℤ) : ℚ)
  else angle

/-- `moveTowardsAngle`. -/
def moveTowardsAngle (current target maxStep : ℚ) : ℚ :=
  let diff := normalizeAngle (target - current)
  if |diff| ≤ maxStep then target else current + jsSign diff * maxStep

/-- `lerp`. -/
def lerp (a b t : ℚ) : ℚ := a + (b - a) * t

/-- `gaussianScore(value, mean, sigma) = exp(-(diff²)/(2σ²))`. -/
def gaussianScore (m : JSMath) (value mean sigma : ℚ) : ℚ :=
  m.exp (-((value - mean) * (value - mean)) / (2 * sigma * sigma))

/-- `TankPhysicsState` from `shared/src/protocol.ts`. -/
structure TankPhysicsState where
  position : Vec3
  velocity : Vec3
  bodyYaw : ℚ
  turretYaw : ℚ
  gunPitch : ℚ
deriving DecidableEq

/-- `PhysicsInput` from `shared/src/protocol.ts`. -/
structure PhysicsInput where
  forward : Bool
  backward : Bool
  turnLeft : Bool
  turnRight : Bool
  turretYaw : ℚ
  gunPitch : ℚ
deriving DecidableEq

/-- `getForwardVector(yaw) = (-sin yaw, 0, -cos yaw)`. -/
def getForwardVector (m : JSMath) (yaw : ℚ) : Vec3 :=
  ⟨-(m.sin yaw), 0, -(m.cos yaw)⟩

/-- `updateTankPhysics` from `shared/src/protocol.ts`, one step.  The source
mutates `tank` in place; the embedding returns the new state.  The eight
numbered stages below mirror the eight numbered blocks of the source. -/
def updateTankPhysics (m : JSMath) (tank : TankPhysicsState) (input : PhysicsInput)
    (dt : ℚ) (getTerrainHeight : Option (ℚ → ℚ → ℚ)) : TankPhysicsState :=
  -- 1. steering
  let bodyYaw := tank.bodyYaw + (if input.turnLeft then TANK_TURN_RATE * dt else 0)
  let bodyYaw := bodyYaw - (if input.turnRight then TANK_TURN_RATE * dt else 0)
  let bodyYaw := normalizeAngle bodyYaw
  -- 2. turret rotation: rate-limited toward the clamped target, then clamped
  let targetTurretYaw := clamp input.turretYaw (-TURRET_YAW_MAX) TURRET_YAW_MAX
  let diff := normalizeAngle (targetTurretYaw - tank.turretYaw)
  let maxStep := TURRET_TURN_RATE * dt
  let turretYaw :=
    if |diff| ≤ maxStep then targetTurretYaw else tank.turretYaw + jsSign diff * maxStep
  let turretYaw := clamp turretYaw (-TURRET_YAW_MAX) TURRET_YAW_MAX
  -- 3. gun pitch: clamped directly
  let gunPitch := clamp input.gunPitch GUN_PITCH_MIN GUN_PITCH_MAX
  -- 4. thrust along the body forward vector
  let fwd := getForwardVector m bodyYaw
  let velocity :=
    if input.forward then tank.velocity.add (fwd.multiplyScalar (TANK_ACCELERATION * dt))
    else tank.velocity
  let velocity :=
    if input.backward then
      velocity.add (fwd.multiplyScalar (-(TANK_ACCELERATION * TANK_REVERSE_FACTOR) * dt))
    else velocity
  -- 5. frame-rate independent damping
  let velocity := velocity.multiplyScalar (m.pow TANK_DAMPING (dt * 60))
  -- 6. speed limit
  let speed := velocity.length m
  let velocity :=
    if TANK_MAX_SPEED < speed then (velocity.normalize m).multiplyScalar TANK_MAX_SPEED
    else velocity
  -- 7. position integration
  let position := tank.position.add (velocity.multiplyScalar dt)
  -- 8. terrain adaptation
  let position :=
    match getTerrainHeight with
    | some f => { position with y := f position.x position.z }
    | none => position
  { position := position, velocity := velocity, bodyYaw := bodyYaw,
    turretYaw := turretYaw, gunPitch := gunPitch }

/-- A sequence of physics ticks (each tick of the server calls
`updateTankPhysics` once with that tick's input and dt). -/
def runTicks (m : JSMath) (tank : TankPhysicsState)
    (cmds : List (PhysicsInput × ℚ)) (getTerrainHeight : Option (ℚ → ℚ → ℚ)) :
    TankPhysicsState :=
  cmds.foldl (fun t c => updateTankPhysics m t c.1 c.2 getTerrainHeight) tank

/-- `n` physics steps with one fixed input and dt (used by the damping
frame-rate-independence claim). -/
def iterateTankPhysics (m : JSMath) : ℕ → TankPhysicsState → PhysicsInput → ℚ →
    TankPhysicsState
  | 0, tank, _, _ => tank
  | n + 1, tank, input, dt =>
    iterateTankPhysics m n (updateTankPhysics m tank input dt none) input dt

/-- `calculateSplashDamage(hitPos, targetPos)` from `shared/src/protocol.ts`:
0 beyond the splash radius, otherwise linear falloff from the direct-hit
damage scaled by the splash factor. -/
def calculateSplashDamage (m : JSMath) (hitPos targetPos : Vec3) : ℚ :=
  let dist := hitPos.distanceTo m targetPos
  if SPLASH_RADIUS < dist then 0
  else DIRECT_HIT_DAMAGE * (1 - dist / SPLASH_RADIUS) * SPLASH_DAMAGE_FACTOR

/-- `checkProjectileHit`: inclusive sphere test on squared distance. -/
def checkProjectileHit (projPos targetPos : Vec3) (projRadius targetRadius : ℚ) : Bool :=
  projPos.distanceToSq targetPos ≤ (projRadius + targetRadius) * (projRadius + targetRadius)

/-! Server-side entities: `server/src/Player.ts`, `server/src/Projectile.ts`. -/

/-- `InputCmd` from `shared/src/protocol.ts` (the constant `type` tag is
omitted; it is the same on every input command). -/
structure InputCmd where
  seq : ℕ
  forward : Bool
  backward : Bool
  turnLeft : Bool
  turnRight : Bool
  turretYaw : ℚ
  gunPitch : ℚ
  fire : Bool
  stabilize : Bool
  timestamp : ℚ
deriving DecidableEq

/-- Server-side `Player` from `server/src/Player.ts`: transform, survival
state, weapon state, input queue with last-applied command, cumulative
stats, and recent spawn history. -/
structure Player where
  id : ℕ
  nickname : String
  position : Vec3
  velocity : Vec3
  bodyYaw : ℚ
  turretYaw : ℚ
  gunPitch : ℚ
  hp : ℚ
  alive : Bool
  respawnTimer : ℚ
  reloadRemain : ℚ
  inputQueue : List InputCmd
  lastProcessedSeq : ℕ
  lastInput : Option InputCmd
  kills : ℕ
  deaths : ℕ
  hits : ℕ
  shots : ℕ
  lastSpawnPositions : List Vec3
  isBot : Bool
deriving DecidableEq

/-- The `Player` constructor: every field starts at its declared default. -/
def Player.new (id : ℕ) (nickname : String) : Player where
  id := id
  nickname := nickname
  position := Vec3.zero
  velocity := Vec3.zero
  bodyYaw := 0
  turretYaw := 0
  gunPitch := 0
  hp := TANK_MAX_HP
  alive := true
  respawnTimer := 0
  reloadRemain := 0
  inputQueue := []
  lastProcessedSeq := 0
  lastInput := none
  kills := 0
  deaths := 0
  hits := 0
  shots := 0
  lastSpawnPositions := []
  isBot := false

/-- `Player.pushInput`: append only while the queue holds fewer than 10
commands (flood protection; a full queue drops the new command). -/
def Player.pushInput (p : Player) (cmd : InputCmd) : Player :=
  if p.inputQueue.length < 10 then { p with inputQueue := p.inputQueue ++ [cmd] } else p

/-- `Player.popInput`: shift the oldest queued command (recording it as
`lastInput`), or, with an empty queue, replay `lastInput` with `fire`
forced off; `none` only when nothing was ever applied. -/
def Player.popInput (p : Player) : Option InputCmd × Player :=
  match p.inputQueue with
  | cmd :: rest => (some cmd, { p with inputQueue := rest, lastInput := some cmd })
  | [] =>
    match p.lastInput with
    | some last => (some { last with fire := false }, p)
    | none => (none, p)

/-- `Player.takeDamage`: no-op returning `false` on a non-alive player;
otherwise clamp hp at 0 and, on reaching 0, clear the input queue,
`lastInput` and velocity and drop the alive flag, returning `true`. -/
def Player.takeDamage (p : Player) (amount : ℚ) : Bool × Player :=
  if !p.alive then (false, p)
  else
    let hp := max 0 (p.hp - amount)
    if hp ≤ 0 then
      (true, { p with hp := hp, alive := false, inputQueue := [], lastInput := none,
                      velocity := Vec3.zero })
    else (false, { p with hp := hp })

/-- The record a lethal `takeDamage` leaves behind: hp clamped to 0, the
alive flag dropped, and the input queue, last input and velocity cleared. -/
def Player.deadOf (p : Player) : Player :=
  { p with
    hp := 0
    alive := false
    inputQueue := []
    lastInput := none
    velocity := Vec3.zero }

/-- `Player.respawn`: reset to full health at the given position.  The
source draws the new body yaw from `Math.random`; the embedding takes it as
the `newBodyYaw` argument. -/
def Player.respawn (p : Player) (position : Vec3) (newBodyYaw : ℚ) : Player :=
  let spawns := p.lastSpawnPositions ++ [position]
  let spawns := if 5 < spawns.length then spawns.tail else spawns
  { p with position := position, velocity := Vec3.zero, bodyYaw := newBodyYaw,
           turretYaw := 0, gunPitch := 0, hp := TANK_MAX_HP, alive := true,
           reloadRemain := 0, respawnTimer := 0, lastSpawnPositions := spawns }

/-- `Player.tryFire`. -/
def Player.tryFire (p : Player) : Bool × Player :=
  if !p.alive ∨ 0 < p.reloadRemain then (false, p)
  else (true, { p with reloadRemain := RELOAD_TIME, shots := p.shots + 1 })

/-- `Player.updateReload`. -/
def Player.updateReload (p : Player) (dtMs : ℚ) : Player :=
  if 0 < p.reloadRemain then { p with reloadRemain := max 0 (p.reloadRemain - dtMs) } else p

/-- Server-side `Projectile` (`active` is dropped by the world fragment
below once the projectile explodes, so it is not threaded further). -/
structure Projectile where
  id : ℕ
  shooterId : ℕ
  position : Vec3
  velocity : Vec3
  ttl : ℚ
  active : Bool
deriving DecidableEq

/-! `server/src/GameWorld.ts`: the damage / death / respawn fragment. -/

/-- Tick events, as the closed sum of the event records of
`shared/src/protocol.ts`. -/
inductive GameEvent where
  | fire (shooterId : ℕ) (muzzlePos muzzleDir : Vec3) (projectileId : ℕ)
  | hit (projectileId targetId : ℕ) (hitPos : Vec3) (damage : ℚ)
  | explode (projectileId : ℕ) (pos : Vec3) (radius : ℚ)
  | death (victimId killerId : ℕ) (pos : Vec3)
  | respawn (playerId : ℕ) (spawnPos : Vec3)
deriving DecidableEq

/-- Whether an event is a death event for the given victim. -/
def GameEvent.isDeathOf (victimId : ℕ) : GameEvent → Bool
  | .death v _ _ => v = victimId
  | _ => false

/-- An entry of `GameWorld.respawnQueue`. -/
structure RespawnEntry where
  playerId : ℕ
  timer : ℚ
deriving DecidableEq

/-- The part of `GameWorld` the damage pipeline touches: the player map
(as a list in insertion order), the respawn queue and the pending events. -/
structure WorldState where
  players : List Player
  respawnQueue : List RespawnEntry
  events : List GameEvent
deriving DecidableEq

/-- Update the player with the given id (a JS `Map` value mutation). -/
def updatePlayer (ps : List Player) (id : ℕ) (f : Player → Player) : List Player :=
  ps.map fun p => if p.id = id then f p else p

/-- `players.get(id)` (first match in insertion order). -/
def findPlayer (ps : List Player) (id : ℕ) : Option Player :=
  ps.find? fun p => p.id = id

/-- `GameWorld.handleDeath`: bump the victim's deaths and (when present)
the killer's kills, emit one death event, and queue the victim for respawn
after `RESPAWN_DELAY`. -/
def handleDeath (w : WorldState) (victimId killerId : ℕ) : WorldState :=
  let players := updatePlayer w.players victimId fun v => { v with deaths := v.deaths + 1 }
  let players := updatePlayer players killerId fun k => { k with kills := k.kills + 1 }
  let pos := ((findPlayer players victimId).map Player.position).getD Vec3.zero
  { players := players,
    respawnQueue := w.respawnQueue ++ [⟨victimId, RESPAWN_DELAY⟩],
    events := w.events ++ [.death victimId killerId pos] }

/-- One step of the splash loop of `GameWorld.handleProjectileExplode`: skip
non-alive players, the shooter and the direct-hit target; otherwise apply
the splash damage when positive and handle a resulting death. -/
def splashOne (m : JSMath) (proj : Projectile) (directHitTargetId : Option ℕ)
    (w : WorldState) (pid : ℕ) : WorldState :=
  match findPlayer w.players pid with
  | none => w
  | some p =>
    if !p.alive ∨ pid = proj.shooterId ∨ directHitTargetId = some pid then w
    else
      let dmg := calculateSplashDamage m proj.position p.position
      if 0 < dmg then
        let r := p.takeDamage dmg
        let w := { w with players := updatePlayer w.players pid fun _ => r.2 }
        if r.1 then handleDeath w pid proj.shooterId else w
      else w

/-- `GameWorld.handleProjectileExplode`: emit the explode event, then run
the splash loop over the players in map order. -/
def handleProjectileExplode (m : JSMath) (w : WorldState) (proj : Projectile)
    (directHitTargetId : Option ℕ) : WorldState :=
  let w := { w with events :=
    w.events ++ [GameEvent.explode proj.id proj.position SPLASH_RADIUS] }
  (w.players.map Player.id).foldl (splashOne m proj directHitTargetId) w

/-- `GameWorld.handleDirectHit`: emit the hit event, bump the shooter's hit
counter, deal the direct-hit damage (handling a death), then explode with
the target excluded from splash. -/
def handleDirectHit (m : JSMath) (w : WorldState) (proj : Projectile) (targetId : ℕ) :
    WorldState :=
  let w := { w with events :=
    w.events ++ [GameEvent.hit proj.id targetId proj.position DIRECT_HIT_DAMAGE] }
  let w := { w with players := updatePlayer w.players proj.shooterId
                      fun s => { s with hits := s.hits + 1 } }
  match findPlayer w.players targetId with
  | none => handleProjectileExplode m w proj (some targetId)
  | some target =>
    let r := target.takeDamage DIRECT_HIT_DAMAGE
    let w := { w with players := updatePlayer w.players targetId fun _ => r.2 }
    let w := if r.1 then handleDeath w targetId proj.shooterId else w
    handleProjectileExplode m w proj (some targetId)

/-- `GameWorld.updateRespawnQueue`: decrement every timer by the tick
interval; entries reaching 0 leave the queue and their players respawn at
the position the spawn manager picks (here the `spawnPosFor` parameter,
with `yawFor` standing for the random respawn yaw), emitting one respawn
event each. -/
def updateRespawnQueue (w : WorldState) (dtMs : ℚ) (spawnPosFor : ℕ → Vec3)
    (yawFor : ℕ → ℚ) : WorldState :=
  let decremented := w.respawnQueue.map fun e => { e with timer := e.timer - dtMs }
  let toRespawn := decremented.filter fun e => e.timer ≤ 0
  let remaining := decremented.filter fun e => ¬ e.timer ≤ 0
  toRespawn.foldl
    (fun acc e =>
      { acc with
        players := updatePlayer acc.players e.playerId
          fun p => p.respawn (spawnPosFor e.playerId) (yawFor e.playerId),
        events := acc.events ++ [.respawn e.playerId (spawnPosFor e.playerId)] })
    { w with respawnQueue := remaining }

/-- `n` ticks of the respawn queue (each world tick calls
`updateRespawnQueue` once with `TICK_INTERVAL`, the tick of the death
included). -/
def iterateRespawn (spawnPosFor : ℕ → Vec3) (yawFor : ℕ → ℚ) : ℕ → WorldState → WorldState
  | 0, w => w
  | n + 1, w =>
    iterateRespawn spawnPosFor yawFor n (updateRespawnQueue w TICK_INTERVAL spawnPosFor yawFor)

/-! `server/src/MapGenerator.ts`.  The 32-bit integer operations of the
seeded RNG and of the noise hash (`& 0xffffffff`, `| 0`, `^`, `>>`,
`>>> 0`) are embedded exactly over `ℤ`.  One abstraction: JS evaluates the
hash's intermediate products in double precision, where they can exceed
2^53 and round; the embedding keeps them exact.  Both are deterministic
functions of their arguments, which is all the claims about the generator
use. -/

/-- `ToUint32`: the representative of `x` modulo 2^32 in `[0, 2^32)`
(JS `x >>> 0`). -/
def toUint32 (x : ℤ) : ℤ := x % 4294967296

/-- `ToInt32`: the representative of `x` modulo 2^32 in `[-2^31, 2^31)`
(JS `x | 0` on an integral value). -/
def toInt32 (x : ℤ) : ℤ := (x + 2147483648) % 4294967296 - 2147483648

/-- Bitwise XOR of two 32-bit values, with an int32 result (JS `x ^ y`). -/
def xor32 (x y : ℤ) : ℤ :=
  let u := Nat.xor (toUint32 x).toNat (toUint32 y).toNat
  if u < 2147483648 then (u : ℤ) else (u : ℤ) - 4294967296

/-- Arithmetic right shift of an int32 value (JS `x >> n`): floor division
of the signed representative by 2^n. -/
def shr32 (x : ℤ) (n : ℕ) : ℤ := Int.fdiv (toInt32 x) (2 ^ n)

/-- One step of the linear congruential generator of `createSeededRandom`:
`s = (s * 1664525 + 1013904223) & 0xffffffff`, returning
`(s >>> 0) / 0xffffffff` together with the new state. -/
def rngNext (s : ℤ) : ℚ × ℤ :=
  let s' := toInt32 (s * 1664525 + 1013904223)
  (((toUint32 s' : ℤ) : ℚ) / 4294967295, s')

/-- The seeded lattice hash inside `simplex2D`, valued in `[-0.5, 0.5)`. -/
def jsHash (seed a b : ℤ) : ℚ :=
  let h := toInt32 (a * 374761393 + b * 668265263 + seed * 1013904223)
  let h := toInt32 (xor32 h (shr32 h 13) * 1274126177)
  ((toUint32 (xor32 h (shr32 h 16)) : ℤ) : ℚ) / 4294967295 - 0.5

/-- `simplex2D`: hash-based bilinear value noise with smoothstep fade. -/
def simplex2D (x y : ℚ) (seed : ℤ) : ℚ :=
  let ix : ℤ := ⌊x⌋
  let iy : ℤ := ⌊y⌋
  let fx : ℚ := x - ix
  let fy : ℚ := y - iy
  let n00 := jsHash seed ix iy
  let n10 := jsHash seed (ix + 1) iy
  let n01 := jsHash seed ix (iy + 1)
  let n11 := jsHash seed (ix + 1) (iy + 1)
  let sx := fx * fx * (3 - 2 * fx)
  let sy := fy * fy * (3 - 2 * fy)
  (n00 * (1 - sx) + n10 * sx) * (1 - sy) + (n01 * (1 - sx) + n11 * sx) * sy

/-- `CoverNode`. -/
structure CoverNode where
  position : Vec3
  radius : ℚ
  height : ℚ
deriving DecidableEq

/-- `SpawnZone`. -/
structure SpawnZone where
  id : ℕ
  center : Vec3
  radius : ℚ
deriving DecidableEq

/-- `GameMapData` (the `Float32Array` heightmap becomes a row-major
`List ℚ` of length `resolution * resolution`). -/
structure GameMapData where
  width : ℚ
  depth : ℚ
  heightmap : List ℚ
  resolution : ℕ
  covers : List CoverNode
  spawnZones : List SpawnZone
  seed : ℤ
deriving DecidableEq

/-- The base-terrain double loop of `MapGenerator.generate`: for each cell
in row-major order (z outer, x inner), three noise octaves, attenuation
toward the map center, and one RNG perturbation draw; the RNG state
threads through the cells in order. -/
def genHeights (m : JSMath) (seed : ℤ) (res : ℕ) (s0 : ℤ) : List ℚ × ℤ :=
  (List.range (res * res)).foldl
    (fun acc i =>
      let z := i / res
      let x := i % res
      let nx : ℚ := (x : ℚ) / res - 0.5
      let nz : ℚ := (z : ℚ) / res - 0.5
      let h := simplex2D (nx * 2) (nz * 2) seed * 8 + simplex2D (nx * 4) (nz * 4) seed * 4 +
        simplex2D (nx * 8) (nz * 8) seed * 2
      let centerDist := m.sqrt (nx * nx + nz * nz) * 2
      let h := h * min 1 (centerDist * 1.5)
      let r := rngNext acc.2
      let h := h + (r.1 - 0.5) * PERTURBATION_AMPLITUDE * 0.3
      (acc.1 ++ [h], r.2))
    ([], s0)

/-- One cell of `clampSlopes`: the four neighbour heights are read once,
then each comparison pulls the cell halfway back toward the limit
(sequentially, as the source's inner loop does). -/
def clampCell (hm : List ℚ) (idx : ℕ) (res : ℕ) (maxHeightDiff : ℚ) : List ℚ :=
  let neighbors := [hm.getD (idx - 1) 0, hm.getD (idx + 1) 0,
                    hm.getD (idx - res) 0, hm.getD (idx + res) 0]
  neighbors.foldl
    (fun hm' nh =>
      let diff := hm'.getD idx 0 - nh
      if maxHeightDiff < |diff| then
        hm'.set idx (hm'.getD idx 0 - jsSign diff * (|diff| - maxHeightDiff) * 0.5)
      else hm')
    hm

/-- `clampSlopes`: three sequential passes over the interior cells in
row-major order. -/
def clampSlopes (hm : List ℚ) (res : ℕ) (maxSlope gridSpacing : ℚ) (m : JSMath) : List ℚ :=
  let maxHeightDiff := m.tan maxSlope * gridSpacing
  let interior := (List.range (res * res)).filter fun i =>
    let z := i / res
    let x := i % res
    decide (1 ≤ z ∧ z + 2 ≤ res ∧ 1 ≤ x ∧ x + 2 ≤ res)
  (List.range 3).foldl
    (fun hm0 _ => interior.foldl (fun hmc idx => clampCell hmc idx res maxHeightDiff) hm0)
    hm

/-- `generateCovers`: a seeded count in `[15, 24]`, then per cover four RNG
draws in source order (x, z, radius, height). -/
def generateCovers (s0 : ℤ) : List CoverNode × ℤ :=
  let r0 := rngNext s0
  let count := 15 + (⌊r0.1 * 10⌋ : ℤ).toNat
  let halfW := MAP_WIDTH / 2
  let halfD := MAP_DEPTH / 2
  (List.range count).foldl
    (fun acc _ =>
      let r1 := rngNext acc.2
      let r2 := rngNext r1.2
      let r3 := rngNext r2.2
      let r4 := rngNext r3.2
      let cover : CoverNode :=
        { position := ⟨(r1.1 - 0.5) * halfW * 1.6, 0, (r2.1 - 0.5) * halfD * 1.6⟩,
          radius := 2 + r3.1 * 3,
          height := 2 + r4.1 * 2 }
      (acc.1 ++ [cover], r4.2))
    ([], r0.2)

/-- `generateSpawnZones`: the fixed ring of 8 zones around the map edge. -/
def generateSpawnZones : List SpawnZone :=
  let halfW := MAP_WIDTH / 2
  let halfD := MAP_DEPTH / 2
  let margin : ℚ := 30
  [ { id := 0, center := ⟨-halfW + margin, 0, -halfD + margin⟩, radius := 25 },
    { id := 1, center := ⟨halfW - margin, 0, -halfD + margin⟩, radius := 25 },
    { id := 2, center := ⟨-halfW + margin, 0, halfD - margin⟩, radius := 25 },
    { id := 3, center := ⟨halfW - margin, 0, halfD - margin⟩, radius := 25 },
    { id := 4, center := ⟨0, 0, -halfD + margin⟩, radius := 25 },
    { id := 5, center := ⟨0, 0, halfD - margin⟩, radius := 25 },
    { id := 6, center := ⟨-halfW + margin, 0, 0⟩, radius := 25 },
    { id := 7, center := ⟨halfW - margin, 0, 0⟩, radius := 25 } ]

/-- `MapGenerator.generate(seed)`: base terrain (with the RNG created from
the seed and threaded through the height loop and then the cover
generator), slope relaxation, covers, and the fixed spawn zones.  Its only
inputs are the math primitives and the seed. -/
def MapGenerator.generate (m : JSMath) (seed : ℤ) : GameMapData :=
  let res := HEIGHTMAP_RESOLUTION
  let hs := genHeights m seed res seed
  let heightmap := clampSlopes hs.1 res MAX_SLOPE (MAP_WIDTH / res) m
  let covers := generateCovers hs.2
  { width := MAP_WIDTH, depth := MAP_DEPTH, heightmap := heightmap, resolution := res,
    covers := covers.1, spawnZones := generateSpawnZones, seed := seed }

/-- `MapGenerator.getHeightAt`: bilinear interpolation on the grid, 0
outside it. -/
def MapGenerator.getHeightAt (map : GameMapData) (x z : ℚ) : ℚ :=
  let gx := (x + map.width / 2) / map.width * ((map.resolution : ℚ) - 1)
  let gz := (z + map.depth / 2) / map.depth * ((map.resolution : ℚ) - 1)
  let ix : ℤ := ⌊gx⌋
  let iz : ℤ := ⌊gz⌋
  let fx := gx - ix
  let fz := gz - iz
  if ix < 0 ∨ (map.resolution : ℤ) - 1 ≤ ix ∨ iz < 0 ∨ (map.resolution : ℤ) - 1 ≤ iz then 0
  else
    let ixn := ix.toNat
    let izn := iz.toNat
    let h00 := map.heightmap.getD (izn * map.resolution + ixn) 0
    let h10 := map.heightmap.getD (izn * map.resolution + ixn + 1) 0
    let h01 := map.heightmap.getD ((izn + 1) * map.resolution + ixn) 0
    let h11 := map.heightmap.getD ((izn + 1) * map.resolution + ixn + 1) 0
    let h0 := h00 + (h10 - h00) * fx
    let h1 := h01 + (h11 - h01) * fx
    h0 + (h1 - h0) * fz

/-! `server/src/SpawnManager.ts`.  `Math.random` is embedded as an
adversarial draw stream `rand : ℕ → ℚ` with a threaded index: draw `k` of a
call is `rand k`, in the source's evaluation order (per candidate the angle
then the radius, then one draw for the top-K pick). -/

/-- `isPointBetween`: whether a cover footprint lies on the 2D segment from
`frm` to `toP` (the simplified line-of-sight occlusion test). -/
def isPointBetween (m : JSMath) (frm toP point : Vec3) (radius : ℚ) : Bool :=
  let dx := toP.x - frm.x
  let dz := toP.z - frm.z
  let len := m.sqrt (dx * dx + dz * dz)
  if len < 0.001 then false
  else
    let t := ((point.x - frm.x) * dx + (point.z - frm.z) * dz) / (len * len)
    if t < 0 ∨ 1 < t then false
    else
      let closestX := frm.x + t * dx
      let closestZ := frm.z + t * dz
      let dist := m.sqrt ((point.x - closestX) * (point.x - closestX) +
        (point.z - closestZ) * (point.z - closestZ))
      dist < radius

/-- `SpawnManager.scoreCandidate`: the weighted sum of the distance term,
line-of-sight penalty, cover bonus, central-flow term, and the flat
recent-spawn cooldown penalty. -/
def scoreCandidate (m : JSMath) (recentSpawns : List Vec3) (candidate : Vec3)
    (enemies : List Player) (map : GameMapData) : ℚ :=
  let score : ℚ := 0
  let score := score +
    (match enemies.foldl
        (fun best e =>
          let d := candidate.distanceTo m e.position
          match best with
          | none => some d
          | some b => if d < b then some d else some b)
        none with
     | some minDist => gaussianScore m minDist IDEAL_SPAWN_DISTANCE SPAWN_DISTANCE_SIGMA *
        SPAWN_WEIGHT_DISTANCE
     | none => SPAWN_WEIGHT_DISTANCE)
  let losCount := (enemies.filter fun e =>
    candidate.distanceTo m e.position < 30 &&
      !(map.covers.any fun cover =>
        isPointBetween m candidate e.position cover.position cover.radius)).length
  let score := score - (losCount : ℚ) * SPAWN_WEIGHT_LOS
  let nearbyCovers := map.covers.filter fun c =>
    candidate.distanceTo m c.position < COVER_SEARCH_RADIUS
  let score := score + (min nearbyCovers.length 3 : ℕ) * SPAWN_WEIGHT_COVER
  let flowDist := m.sqrt (candidate.x * candidate.x + candidate.z * candidate.z)
  let score := score + gaussianScore m flowDist 80 30 * SPAWN_WEIGHT_FLOW
  let tooRecent := recentSpawns.any fun p =>
    candidate.distanceTo m p < SPAWN_COOLDOWN_RADIUS
  if tooRecent then score - SPAWN_WEIGHT_RECENT else score

/-- One candidate of `SpawnManager.generateCandidates`: a polar-random
offset within the zone (draws `k` and `k+1`), clamped into the map bounds
with a 5-unit margin and height-sampled from the terrain. -/
def spawnCandidateAt (m : JSMath) (map : GameMapData) (zone : SpawnZone) (rand : ℕ → ℚ)
    (k : ℕ) : Vec3 :=
  let angle := rand k * piJS * 2
  let r := rand (k + 1) * zone.radius
  let x := zone.center.x + m.cos angle * r
  let z := zone.center.z + m.sin angle * r
  let clampedX := max (-(map.width) / 2 + 5) (min (map.width / 2 - 5) x)
  let clampedZ := max (-(map.depth) / 2 + 5) (min (map.depth / 2 - 5) z)
  let y := MapGenerator.getHeightAt map clampedX clampedZ
  ⟨clampedX, y, clampedZ⟩

/-- `SpawnManager.generateCandidates`: `ceil(SPAWN_CANDIDATE_COUNT /
zones)` candidates per zone, accumulated zone by zone with the draw index
threaded through.  Returns the candidates with the next draw index. -/
def generateCandidates (m : JSMath) (map : GameMapData) (rand : ℕ → ℚ) (k0 : ℕ) :
    List Vec3 × ℕ :=
  let nz := map.spawnZones.length
  let pointsPerZone := if nz = 0 then 0 else (SPAWN_CANDIDATE_COUNT + nz - 1) / nz
  map.spawnZones.foldl
    (fun acc zone =>
      (List.range pointsPerZone).foldl
        (fun acc2 _ => (acc2.1 ++ [spawnCandidateAt m map zone rand acc2.2], acc2.2 + 2))
        acc)
    ([], k0)

/-- Insert an element into a list already sorted descending by `key`,
after every element whose key is at least as large (so a full sort built
from it is stable, as JS `Array.prototype.sort` is). -/
def insertDescBy {α : Type} (key : α → ℚ) (x : α) : List α → List α
  | [] => [x]
  | y :: l => if key x ≤ key y then y :: insertDescBy key x l else x :: y :: l

/-- Stable sort, descending by `key`: the model of the source's
`sort((a, b) => b.score - a.score)`. -/
def jsSortDescBy {α : Type} (key : α → ℚ) (l : List α) : List α :=
  l.foldl (fun acc x => insertDescBy key x acc) []

/-- `SpawnManager.selectSpawnPoint`: score the candidates, sort descending
by score (JS `sort` with subtraction comparator; stable), keep the top K,
pick uniformly at random among them, and record the choice into the
bounded recent-spawn history.  Returns the point, the new history and the
next draw index. -/
def selectSpawnPoint (m : JSMath) (recentSpawns : List Vec3) (player : Player)
    (enemies : List Player) (map : GameMapData) (rand : ℕ → ℚ) (k0 : ℕ) :
    Vec3 × List Vec3 × ℕ :=
  let aliveEnemies := enemies.filter fun e => e.alive && e.id ≠ player.id
  let cs := generateCandidates m map rand k0
  let scored := cs.1.map fun point => (point, scoreCandidate m recentSpawns point aliveEnemies map)
  let sorted := jsSortDescBy Prod.snd scored
  let topK := sorted.take SPAWN_TOP_K
  let idx := (⌊rand cs.2 * topK.length⌋ : ℤ).toNat
  let selected := (topK.getD idx (Vec3.zero, 0)).1
  let recent := recentSpawns ++ [selected]
  let recent := if 20 < recent.length then recent.tail else recent
  (selected, recent, cs.2 + 1)

/-! `server/src/GameRoom.ts` (admission / AI backfill) and
`server/src/AIPlayer.ts` (factory). -/

/-- The admission-relevant state of a `GameRoom`: the human client ids and
the AI bot ids, each in insertion order (`world.players` holds exactly the
humans plus the bots, so its size is the sum of the two lengths), and the
next human player id. -/
structure RoomModel where
  humans : List ℕ
  bots : List ℕ
  nextPlayerId : ℕ
deriving DecidableEq

/-- `GameRoom.addPlayer`: at the combined ceiling, first evict the first
AI bot if one exists, else reject with `null`; then create the player and
register the client. -/
def GameRoom.addPlayer (r : RoomModel) : Option (ℕ × RoomModel) :=
  let step1 : Option RoomModel :=
    if MAX_PLAYERS ≤ r.humans.length + r.bots.length then
      match r.bots with
      | _firstBot :: rest => some { r with bots := rest }
      | [] => none
    else some r
  match step1 with
  | none => none
  | some r1 =>
    let pid := r1.nextPlayerId
    some (pid, { r1 with humans := r1.humans ++ [pid], nextPlayerId := pid + 1 })

/-- The AI nickname cycle (`AI_NAMES` in `server/src/AIPlayer.ts`). -/
def AI_NAMES : List String :=
  ["Panzer_Bot", "T34_AI", "Sherman_Bot", "Tiger_AI",
   "Abrams_Bot", "Leopard_AI", "Merkava_Bot", "Challenger_AI",
   "Type99_Bot", "Leclerc_AI", "Centurion_Bot", "IS2_AI"]

/-- `AIPlayer.create`: the factory reads and bumps `AIPlayer.nameIndex`, a
`private static` field of the class — process-wide mutable state shared by
every room.  The embedding threads that process-wide counter explicitly:
the argument is its value before the call, the second component its value
after. -/
def AIPlayer.create (nameIndex : ℕ) (playerId : ℕ) : Player × ℕ :=
  let name := AI_NAMES.getD (nameIndex % AI_NAMES.length) ""
  ({ Player.new playerId ("[BOT] " ++ name) with isBot := true }, nameIndex + 1)

/-- The name a given room assigns to its next AI, as a function of how many
AI have been created anywhere in the process before (the static
`nameIndex`). -/
def nextAIBotNickname (creationsSoFar : ℕ) : String :=
  (AIPlayer.create creationsSoFar 100).1.nickname

/-! Concrete instantiations used by witnesses and counterexamples. -/

/-- A degenerate math instance for statements that do not depend on the
values of the transcendental primitives. -/
def mZero : JSMath where
  sqrt := fun _ => 0
  sin := fun _ => 0
  cos := fun _ => 0
  pow := fun _ _ => 0
  exp := fun _ => 0
  tan := fun _ => 0

/-- A math instance whose `sqrt` is the identity (enough to exhibit
distances 0 and ≥ splash radius on concrete vectors). -/
def mIdSqrt : JSMath := { mZero with sqrt := fun x => x }

/-- A math instance agreeing with the real `sqrt` and `pow` at every point
the damping witness evaluates them: `sqrt` is the monotone step function
that is 0 below `TANK_MAX_SPEED²` and `TANK_MAX_SPEED` from there on (so
it decides the speed-limit branch exactly as the real square root does for
speeds at most the maximum), and `pow` returns the base at exponent 1 and
the squared base elsewhere. -/
def mStep : JSMath :=
  { mZero with
    sqrt := fun x => if x < TANK_MAX_SPEED * TANK_MAX_SPEED then 0 else TANK_MAX_SPEED,
    pow := fun b e => if e = 1 then b else b * b }

/-- A math instance agreeing with the real `sqrt` and `pow` at every point
of the damping counterexample's trace: the three squared speeds that occur
(`28.7423² , 14.37115², 28.3111655²`) map to their exact real square
roots, and `pow 0.985` at exponents 1 and 2 is exact.  Every branch taken
during the trace therefore matches the IEEE execution of the source. -/
def mC6 : JSMath :=
  { mZero with
    sqrt := fun x =>
      if x = (28.7423 : ℚ) * 28.7423 then 28.7423
      else if x = (14.37115 : ℚ) * 14.37115 then 14.37115
      else if x = (28.3111655 : ℚ) * 28.3111655 then 28.3111655
      else 0,
    pow := fun b e => if e = 1 then b else if e = 2 then b * b else 0 }

/-- Input with no movement and no fire: all flags off, both aim targets 0. -/
def noMoveInput : PhysicsInput where
  forward := false
  backward := false
  turnLeft := false
  turnRight := false
  turretYaw := 0
  gunPitch := 0

/-- A tank moving at twice the speed limit along x (the damping
counterexample's start state). -/
def tankC6 : TankPhysicsState where
  position := Vec3.zero
  velocity := ⟨29.18, 0, 0⟩
  bodyYaw := 0
  turretYaw := 0
  gunPitch := 0

/-- A tank within the speed limit (the damping witness's start state). -/
def tankC6W : TankPhysicsState where
  position := Vec3.zero
  velocity := ⟨1, 0, 0⟩
  bodyYaw := 0
  turretYaw := 0
  gunPitch := 0

/-- A math instance for the spawn counterexample: `sqrt 0 = 0` and 100 on
every other visited point — consistent in every branch with the real
square root on the counterexample's trace, where every nonzero squared
distance that is compared against a radius is at least `170²`. -/
def mC8 : JSMath := { mZero with sqrt := fun x => if x = 0 then 0 else 100 }

/-- The all-zero draw stream: every `Math.random()` call returns 0 (JS
guarantees a value in `[0, 1)`). -/
def rand0 : ℕ → ℚ := fun _ => 0

/-- A 2×2 flat map with the standard 400×400 bounds, the fixed 8 spawn
zones, and no covers. -/
def mapC8 : GameMapData where
  width := 400
  depth := 400
  heightmap := [0, 0, 0, 0]
  resolution := 2
  covers := []
  spawnZones := generateSpawnZones
  seed := 0

/-- The combatant the spawn selector is asked to place. -/
def playerC8 : Player := Player.new 1 ("P")

/-- A map with a single spawn zone at the origin (within the same 400×400
bounds): every candidate of every call lands at the zone center, so the
recent-spawn penalty can never steer the selection away from it. -/
def mapCd : GameMapData where
  width := 400
  depth := 400
  heightmap := [0, 0, 0, 0]
  resolution := 2
  covers := []
  spawnZones := [⟨0, Vec3.zero, 25⟩]
  seed := 0

/-- `n` consecutive `selectSpawnPoint` calls on one `SpawnManager` with no
enemies, threading the recent-spawn history and the draw index; the first
component collects the returned points in order. -/
def runSpawnCalls : ℕ → List Vec3 × List Vec3 × ℕ
  | 0 => ([], [], 0)
  | n + 1 =>
    let prev := runSpawnCalls n
    let r := selectSpawnPoint mC8 prev.2.1 playerC8 [] mapCd rand0 prev.2.2
    (prev.1 ++ [r.1], r.2.1, r.2.2)

/-- The direct-hit projectile of the lethal-hit scenario: shot by player 1,
sitting at the origin. -/
def projC1 : Projectile where
  id := 7
  shooterId := 1
  position := Vec3.zero
  velocity := Vec3.zero
  ttl := 1000
  active := true

/-- The victim of the lethal-hit scenario: 15 hp left, alive. -/
def victimC1 : Player := { Player.new 2 ("V") with hp := 15, deaths := 3 }

/-- The shooter of the lethal-hit scenario. -/
def shooterC1 : Player := { Player.new 1 ("S") with kills := 4 }

/-- A two-player world about to process the lethal hit. -/
def worldC1 : WorldState where
  players := [shooterC1, victimC1]
  respawnQueue := []
  events := []

/-- A concrete input command with `fire` on (fields: seq 9, forward,
turn-right, yaw target 1, pitch target 0.2, timestamp 5). -/
def cmdW4 : InputCmd := ⟨9, true, false, false, true, 1, 0.2, true, false, 5⟩

/-- Another concrete input command, queued unmodified by the second
`popInput` branch. -/
def cmdW4b : InputCmd := ⟨1, false, true, true, false, 0, 0, true, true, 2⟩

/-- A player with an empty queue and `cmdW4` as the last applied input. -/
def pW4 : Player := { Player.new 3 ("W") with lastInput := some cmdW4 }

/-- A player with `cmdW4b` queued. -/
def pW4b : Player := { Player.new 4 ("X") with inputQueue := [cmdW4b] }

/-- A dead player (0 hp). -/
def pDeadW : Player := { Player.new 5 ("D") with alive := false, hp := 0 }

/-- A live player at 10 hp. -/
def pLowW : Player := { Player.new 6 ("E") with hp := 10 }

/-! Helper lemmas. -/

/-- The turret travel limit is nonnegative. -/
theorem TURRET_YAW_MAX_nonneg : (0 : ℚ) ≤ TURRET_YAW_MAX := by
  norm_num [TURRET_YAW_MAX, piJS]

/-- Both angle limits of one physics step are direct clamps. -/
theorem updateTankPhysics_angle_bounds (m : JSMath) (tank : TankPhysicsState)
    (input : PhysicsInput) (dt : ℚ) (th : Option (ℚ → ℚ → ℚ)) :
    -TURRET_YAW_MAX ≤ (updateTankPhysics m tank input dt th).turretYaw ∧
      (updateTankPhysics m tank input dt th).turretYaw ≤ TURRET_YAW_MAX ∧
      GUN_PITCH_MIN ≤ (updateTankPhysics m tank input dt th).gunPitch ∧
      (updateTankPhysics m tank input dt th).gunPitch ≤ GUN_PITCH_MAX := by
  have hT : (0 : ℚ) ≤ TURRET_YAW_MAX := TURRET_YAW_MAX_nonneg
  simp only [updateTankPhysics, clamp]
  refine ⟨le_max_left _ _, max_le (by linarith) (min_le_left _ _),
    le_max_left _ _, max_le (by norm_num [GUN_PITCH_MIN, GUN_PITCH_MAX]) (min_le_left _ _)⟩

/-- C2: for every tank state, every input command (arbitrary turret-yaw
and gun-pitch targets included) and every dt, one `updateTankPhysics` call
leaves `turretYaw` in `[-TURRET_YAW_MAX, TURRET_YAW_MAX]` and `gunPitch`
in `[GUN_PITCH_MIN, GUN_PITCH_MAX]`; consequently the bounds hold after
the last tick of every tick sequence. -/
theorem turret_and_gun_stay_in_range (m : JSMath) (tank : TankPhysicsState)
    (input : PhysicsInput) (dt : ℚ) (th : Option (ℚ → ℚ → ℚ))
    (cmds : List (PhysicsInput × ℚ)) :
    (-TURRET_YAW_MAX ≤ (updateTankPhysics m tank input dt th).turretYaw ∧
      (updateTankPhysics m tank input dt th).turretYaw ≤ TURRET_YAW_MAX ∧
      GUN_PITCH_MIN ≤ (updateTankPhysics m tank input dt th).gunPitch ∧
      (updateTankPhysics m tank input dt th).gunPitch ≤ GUN_PITCH_MAX) ∧
    (-TURRET_YAW_MAX ≤ (runTicks m tank (cmds ++ [(input, dt)]) th).turretYaw ∧
      (runTicks m tank (cmds ++ [(input, dt)]) th).turretYaw ≤ TURRET_YAW_MAX ∧
      GUN_PITCH_MIN ≤ (runTicks m tank (cmds ++ [(input, dt)]) th).gunPitch ∧
      (runTicks m tank (cmds ++ [(input, dt)]) th).gunPitch ≤ GUN_PITCH_MAX) := by
  have h2 : runTicks m tank (cmds ++ [(input, dt)]) th =
      updateTankPhysics m (runTicks m tank cmds th) input dt th := by
    simp [runTicks, List.foldl_append]
  exact ⟨updateTankPhysics_angle_bounds m tank input dt th,
    h2 ▸ updateTankPhysics_angle_bounds m (runTicks m tank cmds th) input dt th⟩

/-- C5: splash damage is 0 from the splash radius on, equals
`DIRECT_HIT_DAMAGE * SPLASH_DAMAGE_FACTOR` at distance 0, and is
monotonically non-increasing in the distance. -/
theorem splash_damage_profile (m : JSMath) (hitPos targetPos : Vec3) :
    (SPLASH_RADIUS ≤ hitPos.distanceTo m targetPos →
      calculateSplashDamage m hitPos targetPos = 0) ∧
    (hitPos.distanceTo m targetPos = 0 →
      calculateSplashDamage m hitPos targetPos = DIRECT_HIT_DAMAGE * SPLASH_DAMAGE_FACTOR) ∧
    (∀ hit2 target2 : Vec3, 0 ≤ hitPos.distanceTo m targetPos →
      hitPos.distanceTo m targetPos ≤ hit2.distanceTo m target2 →
      calculateSplashDamage m hit2 target2 ≤ calculateSplashDamage m hitPos targetPos) := by
  refine ⟨fun h => ?_, fun h => ?_, fun hit2 target2 h0 h12 => ?_⟩
  · simp only [calculateSplashDamage, SPLASH_RADIUS, DIRECT_HIT_DAMAGE,
      SPLASH_DAMAGE_FACTOR] at *
    split_ifs with hlt
    · rfl
    · have : hitPos.distanceTo m targetPos = 3 := le_antisymm (not_lt.mp hlt) h
      rw [this]; norm_num
  · simp only [calculateSplashDamage, SPLASH_RADIUS, DIRECT_HIT_DAMAGE,
      SPLASH_DAMAGE_FACTOR, h]
    norm_num
  · simp only [calculateSplashDamage, SPLASH_RADIUS, DIRECT_HIT_DAMAGE,
      SPLASH_DAMAGE_FACTOR] at *
    split_ifs with h2 h1 h1
    · exact le_refl 0
    · nlinarith
    · nlinarith
    · nlinarith

/-- Witness for the splash-damage profile at concrete points: the origin
against `(3,0,0)` (distance ≥ radius, damage 0), the origin against itself
(distance 0, damage `20 * 0.5`), and monotonicity between the two. -/
theorem splash_damage_profile_witness :
    calculateSplashDamage mIdSqrt Vec3.zero ⟨3, 0, 0⟩ = 0 ∧
    calculateSplashDamage mIdSqrt Vec3.zero Vec3.zero =
      DIRECT_HIT_DAMAGE * SPLASH_DAMAGE_FACTOR ∧
    calculateSplashDamage mIdSqrt Vec3.zero ⟨3, 0, 0⟩ ≤
      calculateSplashDamage mIdSqrt Vec3.zero Vec3.zero :=
  ⟨(splash_damage_profile mIdSqrt Vec3.zero ⟨3, 0, 0⟩).1
     (by norm_num [Vec3.distanceTo, Vec3.distanceToSq, mIdSqrt, mZero, Vec3.zero,
       SPLASH_RADIUS]),
   (splash_damage_profile mIdSqrt Vec3.zero Vec3.zero).2.1
     (by norm_num [Vec3.distanceTo, Vec3.distanceToSq, mIdSqrt, mZero, Vec3.zero]),
   (splash_damage_profile mIdSqrt Vec3.zero Vec3.zero).2.2 Vec3.zero ⟨3, 0, 0⟩
     (by norm_num [Vec3.distanceTo, Vec3.distanceToSq, mIdSqrt, mZero, Vec3.zero])
     (by norm_num [Vec3.distanceTo, Vec3.distanceToSq, mIdSqrt, mZero, Vec3.zero])⟩

/-- C4: with an empty queue and a previously applied command, `popInput`
returns that command with `fire` forced off and every other field
unchanged, leaving the player unchanged; with a non-empty queue it returns
the oldest queued command unmodified. -/
theorem popInput_replays_last_without_fire (p : Player) (last cmd : InputCmd)
    (rest : List InputCmd) :
    (p.inputQueue = [] → p.lastInput = some last →
      p.popInput = (some { last with fire := false }, p) ∧
      ∀ out : InputCmd, p.popInput.1 = some out →
        out.fire = false ∧ out.seq = last.seq ∧ out.forward = last.forward ∧
        out.backward = last.backward ∧ out.turnLeft = last.turnLeft ∧
        out.turnRight = last.turnRight ∧ out.turretYaw = last.turretYaw ∧
        out.gunPitch = last.gunPitch ∧ out.stabilize = last.stabilize ∧
        out.timestamp = last.timestamp) ∧
    (p.inputQueue = cmd :: rest →
      p.popInput = (some cmd, { p with inputQueue := rest, lastInput := some cmd })) := by
  constructor
  · intro h1 h2
    have hpop : p.popInput = (some { last with fire := false }, p) := by
      simp [Player.popInput, h1, h2]
    refine ⟨hpop, fun out hout => ?_⟩
    rw [hpop] at hout
    simp only [Option.some.injEq] at hout
    subst hout
    simp
  · intro h
    simp [Player.popInput, h]

/-- Witness for `popInput`: a player whose queue is empty and whose last
input had `fire` on replays it with `fire` off; a player with a queued
command pops it unmodified. -/
theorem popInput_replays_last_without_fire_witness :
    pW4.popInput = (some { cmdW4 with fire := false }, pW4) ∧
    pW4b.popInput =
      (some cmdW4b, { pW4b with inputQueue := [], lastInput := some cmdW4b }) :=
  ⟨((popInput_replays_last_without_fire pW4 cmdW4 cmdW4 []).1 rfl rfl).1,
   (popInput_replays_last_without_fire pW4b cmdW4 cmdW4b []).2 rfl⟩

/-- C10: `takeDamage` on a non-alive combatant is a no-op returning
`false` (every field unchanged), so a combatant already reduced to 0 hp
cannot be killed again by further hits or splash in the same tick. -/
theorem takeDamage_dead_is_noop (p : Player) (amount amount2 : ℚ) :
    (p.alive = false → p.takeDamage amount = (false, p)) ∧
    (p.alive = true → p.hp ≤ amount →
      (p.takeDamage amount).2.alive = false ∧
      (p.takeDamage amount).2.takeDamage amount2 = (false, (p.takeDamage amount).2)) := by
  constructor
  · intro h
    simp [Player.takeDamage, h]
  · intro halive hle
    have hmax : max 0 (p.hp - amount) ≤ 0 := max_le le_rfl (by linarith)
    have hstep : p.takeDamage amount =
        (true, { p with hp := max 0 (p.hp - amount), alive := false, inputQueue := [],
                        lastInput := none, velocity := Vec3.zero }) := by
      simp [Player.takeDamage, halive, hmax]
    rw [hstep]
    exact ⟨rfl, by simp [Player.takeDamage]⟩

/-- Witness for the dead-combatant no-op: a dead player takes 50 damage
without change, and a lethal hit on a 10-hp player leaves a corpse on
which a second hit is a no-op. -/
theorem takeDamage_dead_is_noop_witness :
    pDeadW.takeDamage 50 = (false, pDeadW) ∧
    (pLowW.takeDamage 20).2.alive = false ∧
    (pLowW.takeDamage 20).2.takeDamage 20 = (false, (pLowW.takeDamage 20).2) :=
  ⟨(takeDamage_dead_is_noop pDeadW 50 0).1 rfl,
   (takeDamage_dead_is_noop pLowW 20 20).2 rfl (by norm_num [pLowW, Player.new])⟩

/-- C3: a join below the combined ceiling is accepted; at the ceiling with
an AI present the join evicts one AI and is accepted; under the room
invariant (combatants never exceed the ceiling) the join returns `none` —
an explicit rejection value, not an exception — exactly when the room
holds `MAX_PLAYERS` humans and no AI. -/
theorem addPlayer_admission_policy (r : RoomModel) :
    (r.humans.length + r.bots.length < MAX_PLAYERS →
      ∃ pr : ℕ × RoomModel, GameRoom.addPlayer r = some pr ∧
        pr.2.humans.length = r.humans.length + 1 ∧ pr.2.bots = r.bots) ∧
    (MAX_PLAYERS ≤ r.humans.length + r.bots.length → r.bots ≠ [] →
      ∃ pr : ℕ × RoomModel, GameRoom.addPlayer r = some pr ∧
        pr.2.humans.length = r.humans.length + 1 ∧ pr.2.bots.length + 1 = r.bots.length) ∧
    (r.humans.length + r.bots.length ≤ MAX_PLAYERS →
      (GameRoom.addPlayer r = none ↔ r.humans.length = MAX_PLAYERS ∧ r.bots = [])) := by
  refine ⟨fun hlt => ?_, fun hge hbots => ?_, fun hinv => ?_⟩
  · refine ⟨(r.nextPlayerId,
      ⟨r.humans ++ [r.nextPlayerId], r.bots, r.nextPlayerId + 1⟩), ?_, by simp, rfl⟩
    simp [GameRoom.addPlayer, Nat.not_le.mpr hlt]
  · match hb : r.bots with
    | [] => exact absurd hb hbots
    | b :: rest =>
      refine ⟨(r.nextPlayerId,
        ⟨r.humans ++ [r.nextPlayerId], rest, r.nextPlayerId + 1⟩), ?_, by simp, by simp [hb]⟩
      rw [hb] at hge
      simp only [List.length_cons] at hge
      simp [GameRoom.addPlayer, hb, hge]
  · constructor
    · intro hnone
      by_cases hcap : MAX_PLAYERS ≤ r.humans.length + r.bots.length
      · match hb : r.bots with
        | [] =>
          rw [hb] at hcap
          simp only [List.length_nil, Nat.add_zero] at hcap
          exact ⟨le_antisymm (by simpa [hb] using hinv) hcap, rfl⟩
        | b :: rest =>
          rw [GameRoom.addPlayer.eq_def] at hnone
          simp only [hb] at hnone
          by_cases hc : MAX_PLAYERS ≤ r.humans.length + (b :: rest).length
          · rw [if_pos hc] at hnone
            simp at hnone
          · rw [if_neg hc] at hnone
            simp at hnone
      · rw [GameRoom.addPlayer.eq_def] at hnone
        simp [hcap] at hnone
    · rintro ⟨hh, hb⟩
      rw [GameRoom.addPlayer.eq_def]
      simp [hb, hh]

/-- Witness for the admission policy: an 8+1 room accepts; a 5-human,
5-AI room at the ceiling accepts by evicting one AI; a 10-human, 0-AI room
rejects with `none`. -/
theorem addPlayer_admission_policy_witness :
    (∃ pr : ℕ × RoomModel,
      GameRoom.addPlayer ⟨[1, 2, 3, 4, 5, 6, 7, 8], [101], 9⟩ = some pr ∧
        pr.2.humans.length = 9 ∧ pr.2.bots = [101]) ∧
    (∃ pr : ℕ × RoomModel,
      GameRoom.addPlayer ⟨[1, 2, 3, 4, 5], [101, 102, 103, 104, 105], 6⟩ = some pr ∧
        pr.2.humans.length = 6 ∧ pr.2.bots.length + 1 = 5) ∧
    GameRoom.addPlayer ⟨[1, 2, 3, 4, 5, 6, 7, 8, 9, 10], [], 11⟩ = none :=
  ⟨(addPlayer_admission_policy ⟨[1, 2, 3, 4, 5, 6, 7, 8], [101], 9⟩).1 (by decide),
   (addPlayer_admission_policy ⟨[1, 2, 3, 4, 5], [101, 102, 103, 104, 105], 6⟩).2.1
     (by decide) (by decide),
   ((addPlayer_admission_policy ⟨[1, 2, 3, 4, 5, 6, 7, 8, 9, 10], [], 11⟩).2.2
     (by decide)).mpr (by decide)⟩

/-- C7: `MapGenerator.generate` reads nothing but its seed (and the math
primitives): the RNG is created from the seed and threaded through the
height loop and the cover generator, and no other state exists, so two
independent calls with the same seed produce identical heightmaps,
identical cover lists and identical spawn-zone lists.  In the pure
embedding the two calls are two evaluations of the same function, so the
identity is definitional. -/
theorem generate_deterministic_per_seed (m : JSMath) (seed : ℤ) :
    (MapGenerator.generate m seed).heightmap = (MapGenerator.generate m seed).heightmap ∧
    (MapGenerator.generate m seed).covers = (MapGenerator.generate m seed).covers ∧
    (MapGenerator.generate m seed).spawnZones = (MapGenerator.generate m seed).spawnZones ∧
    (MapGenerator.generate m seed).spawnZones = generateSpawnZones :=
  ⟨rfl, rfl, rfl, rfl⟩

/-- C9 amended: the name-cycling index is a process-wide static of
`AIPlayer`, so the next AI name in any room is a function of the global
creation count (cycling through `AI_NAMES` with period 12), not of the
room. -/
theorem ai_name_index_is_process_wide (k pid : ℕ) :
    (AIPlayer.create k pid).1.nickname =
      "[BOT] " ++ AI_NAMES.getD (k % AI_NAMES.length) "" ∧
    (AIPlayer.create k pid).2 = k + 1 ∧
    nextAIBotNickname (k + AI_NAMES.length) = nextAIBotNickname k := by
  refine ⟨rfl, rfl, ?_⟩
  have h : (k + AI_NAMES.length) % AI_NAMES.length = k % AI_NAMES.length :=
    Nat.add_mod_right _ _
  simp [nextAIBotNickname, AIPlayer.create, h]

/-- Counterexample to C9 as stated: the first AI created in room A is
named `Panzer_Bot` when no other room has created AI yet, but `T34_AI`
when one AI was created in an independent room first — the sequence of
names in one room is shifted by creations in other rooms, because
`AIPlayer.nameIndex` is a process-wide static. -/
theorem ai_name_other_room_interference :
    nextAIBotNickname 0 = "[BOT] Panzer_Bot" ∧
    nextAIBotNickname 1 = "[BOT] T34_AI" ∧
    nextAIBotNickname 1 ≠ nextAIBotNickname 0 :=
  ⟨rfl, rfl, by decide⟩

/-! Damping frame-rate independence (C6). -/

/-- Scaling twice multiplies the scalars. -/
theorem Vec3.multiplyScalar_multiplyScalar (a : Vec3) (s t : ℚ) :
    (a.multiplyScalar s).multiplyScalar t = a.multiplyScalar (s * t) := by
  simp [Vec3.multiplyScalar, mul_assoc]

/-- Scaling by 1 is the identity. -/
theorem Vec3.multiplyScalar_one (a : Vec3) : a.multiplyScalar 1 = a := by
  cases a
  simp [Vec3.multiplyScalar]

/-- The squared length of a scaled vector. -/
theorem Vec3.lengthSq_multiplyScalar (a : Vec3) (s : ℚ) :
    (a.multiplyScalar s).lengthSq = a.lengthSq * (s * s) := by
  simp only [Vec3.multiplyScalar, Vec3.lengthSq]
  ring

/-- Squared lengths are nonnegative. -/
theorem Vec3.lengthSq_nonneg (a : Vec3) : 0 ≤ a.lengthSq :=
  add_nonneg (add_nonneg (mul_self_nonneg _) (mul_self_nonneg _)) (mul_self_nonneg _)

/-- With no thrust input, one physics step multiplies the velocity by the
damping factor, provided the damped velocity is still within the speed
limit (so the clamp branch is not taken; `sqrt` need only be monotone and
exact at the limit for the branch decision to be the real one). -/
theorem updateTankPhysics_velocity_noinput (m : JSMath) (tank : TankPhysicsState)
    (input : PhysicsInput) (dt : ℚ) (hf : input.forward = false)
    (hb : input.backward = false) (hmono : Monotone m.sqrt)
    (hmax : m.sqrt (TANK_MAX_SPEED * TANK_MAX_SPEED) = TANK_MAX_SPEED)
    (hsq : (tank.velocity.multiplyScalar (m.pow TANK_DAMPING (dt * 60))).lengthSq ≤
      TANK_MAX_SPEED * TANK_MAX_SPEED) :
    (updateTankPhysics m tank input dt none).velocity =
      tank.velocity.multiplyScalar (m.pow TANK_DAMPING (dt * 60)) := by
  have hspeed :
      m.sqrt ((tank.velocity.multiplyScalar (m.pow TANK_DAMPING (dt * 60))).lengthSq) ≤
        TANK_MAX_SPEED := hmax ▸ hmono hsq
  simp only [updateTankPhysics, hf, hb, Bool.false_eq_true, if_false, Vec3.length]
  rw [if_neg (not_lt.mpr hspeed)]

/-- Iterating the no-thrust step `n` times from a velocity within the
speed limit multiplies the velocity by `TANK_DAMPING ^ n`. -/
theorem iterate_velocity_noinput (m : JSMath) (input : PhysicsInput)
    (hf : input.forward = false) (hb : input.backward = false) (hmono : Monotone m.sqrt)
    (hmax : m.sqrt (TANK_MAX_SPEED * TANK_MAX_SPEED) = TANK_MAX_SPEED)
    (hpow1 : m.pow TANK_DAMPING 1 = TANK_DAMPING) (n : ℕ) (tank : TankPhysicsState)
    (hsq : tank.velocity.lengthSq ≤ TANK_MAX_SPEED * TANK_MAX_SPEED) :
    (iterateTankPhysics m n tank input (1 / 60)).velocity =
      tank.velocity.multiplyScalar (TANK_DAMPING ^ n) := by
  induction n generalizing tank with
  | zero => simp [iterateTankPhysics, Vec3.multiplyScalar_one]
  | succ n ih =>
    have hd : m.pow TANK_DAMPING ((1 / 60 : ℚ) * 60) = TANK_DAMPING := by
      rw [show ((1 : ℚ) / 60) * 60 = 1 by norm_num, hpow1]
    have hdamp1 : TANK_DAMPING * TANK_DAMPING ≤ 1 := by norm_num [TANK_DAMPING]
    have hsq' : (tank.velocity.multiplyScalar TANK_DAMPING).lengthSq ≤
        TANK_MAX_SPEED * TANK_MAX_SPEED := by
      rw [Vec3.lengthSq_multiplyScalar]
      nlinarith [Vec3.lengthSq_nonneg tank.velocity]
    have hstep := updateTankPhysics_velocity_noinput m tank input (1 / 60) hf hb hmono hmax
      (by rw [hd]; exact hsq')
    rw [hd] at hstep
    have hvel : (updateTankPhysics m tank input (1 / 60) none).velocity.lengthSq ≤
        TANK_MAX_SPEED * TANK_MAX_SPEED := by rw [hstep]; exact hsq'
    calc (iterateTankPhysics m (n + 1) tank input (1 / 60)).velocity
        = (iterateTankPhysics m n (updateTankPhysics m tank input (1 / 60) none)
            input (1 / 60)).velocity := rfl
      _ = (updateTankPhysics m tank input (1 / 60) none).velocity.multiplyScalar
            (TANK_DAMPING ^ n) := ih _ hvel
      _ = tank.velocity.multiplyScalar (TANK_DAMPING ^ (n + 1)) := by
          rw [hstep, Vec3.multiplyScalar_multiplyScalar, ← pow_succ']

/-- C6 amended: for every initial velocity whose speed does not exceed
`TANK_MAX_SPEED`, `n` no-input steps of `dt = 1/60` produce exactly the
same velocity as one step of `dt = n/60` — namely the initial velocity
scaled by `TANK_DAMPING ^ n`, because the damping exponent is `dt·60`.
(The `pow`/`sqrt` hypotheses pin the abstract primitives to the real ones
at the finitely many points the runs evaluate them.)  The equality is
exact, and it concerns the velocity: the claim as stated — same whole
state for every initial velocity — fails, see the counterexample. -/
theorem damping_is_framerate_independent (m : JSMath) (tank : TankPhysicsState)
    (input : PhysicsInput) (n : ℕ) (hf : input.forward = false)
    (hb : input.backward = false) (hmono : Monotone m.sqrt)
    (hmax : m.sqrt (TANK_MAX_SPEED * TANK_MAX_SPEED) = TANK_MAX_SPEED)
    (hpow1 : m.pow TANK_DAMPING 1 = TANK_DAMPING)
    (hpown : m.pow TANK_DAMPING (n : ℚ) = TANK_DAMPING ^ n)
    (hsq : tank.velocity.lengthSq ≤ TANK_MAX_SPEED * TANK_MAX_SPEED) :
    (iterateTankPhysics m n tank input (1 / 60)).velocity =
      (updateTankPhysics m tank input ((n : ℚ) / 60) none).velocity ∧
    (iterateTankPhysics m n tank input (1 / 60)).velocity =
      tank.velocity.multiplyScalar (TANK_DAMPING ^ n) := by
  have hsmall := iterate_velocity_noinput m input hf hb hmono hmax hpow1 n tank hsq
  have hdn : m.pow TANK_DAMPING (((n : ℚ) / 60) * 60) = TANK_DAMPING ^ n := by
    rw [div_mul_cancel₀ _ (by norm_num : (60 : ℚ) ≠ 0), hpown]
  have hc0 : (0 : ℚ) ≤ TANK_DAMPING ^ n := pow_nonneg (by norm_num [TANK_DAMPING]) n
  have hc1 : TANK_DAMPING ^ n ≤ 1 := pow_le_one₀ (by norm_num [TANK_DAMPING]) (by norm_num [TANK_DAMPING])
  have hc2 : TANK_DAMPING ^ n * TANK_DAMPING ^ n ≤ 1 := by nlinarith
  have hsq' : (tank.velocity.multiplyScalar (TANK_DAMPING ^ n)).lengthSq ≤
      TANK_MAX_SPEED * TANK_MAX_SPEED := by
    rw [Vec3.lengthSq_multiplyScalar]
    nlinarith [mul_nonneg (Vec3.lengthSq_nonneg tank.velocity) (sub_nonneg.mpr hc2)]
  have hbig := updateTankPhysics_velocity_noinput m tank input ((n : ℚ) / 60) hf hb hmono hmax
    (by rw [hdn]; exact hsq')
  rw [hdn] at hbig
  exact ⟨hsmall.trans hbig.symm, hsmall⟩

/-- Witness for the amended damping claim: the step-function `sqrt` and
the piecewise `pow` agree with the real primitives at every evaluated
point, and a unit velocity along x is damped identically by two 1/60
steps and one 2/60 step. -/
theorem damping_is_framerate_independent_witness :
    (iterateTankPhysics mStep 2 tankC6W noMoveInput (1 / 60)).velocity =
      (updateTankPhysics mStep tankC6W noMoveInput (((2 : ℕ) : ℚ) / 60) none).velocity ∧
    (iterateTankPhysics mStep 2 tankC6W noMoveInput (1 / 60)).velocity =
      tankC6W.velocity.multiplyScalar (TANK_DAMPING ^ 2) :=
  damping_is_framerate_independent mStep tankC6W noMoveInput 2 rfl rfl
    (by
      intro a b hab
      simp only [mStep, mZero]
      split_ifs with h1 h2 h2
      · exact le_rfl
      · norm_num [TANK_MAX_SPEED]
      · exact absurd (lt_of_le_of_lt (le_trans (not_lt.mp h1) hab) h2) (lt_irrefl _)
      · exact le_rfl)
    (by simp [mStep, mZero])
    (by norm_num [mStep, mZero])
    (by norm_num [mStep, mZero]; ring)
    (by norm_num [tankC6W, Vec3.lengthSq, TANK_MAX_SPEED])

/-- Counterexample to C6 as stated: from velocity `(29.18, 0, 0)` (twice
the speed limit), two 1/60 steps end at speed `0.985 · 14.59 = 14.37115`,
while one 2/60 step ends clamped at `14.59` — the states differ by
`0.21885` in x-velocity, far beyond numerical tolerance, because the speed
clamp runs once per step.  `mC6` agrees with the real `sqrt`/`pow` at
every point this trace evaluates them, so the branch decisions match the
source's IEEE execution. -/
theorem damping_framerate_counterexample :
    (iterateTankPhysics mC6 2 tankC6 noMoveInput (1 / 60)).velocity.x = 14.37115 ∧
    (updateTankPhysics mC6 tankC6 noMoveInput (2 / 60) none).velocity.x = 14.59 ∧
    (iterateTankPhysics mC6 2 tankC6 noMoveInput (1 / 60)).velocity ≠
      (updateTankPhysics mC6 tankC6 noMoveInput (2 / 60) none).velocity := by
  have hx1 : (iterateTankPhysics mC6 2 tankC6 noMoveInput (1 / 60)).velocity.x = 14.37115 := by
    norm_num [iterateTankPhysics, updateTankPhysics, mC6, mZero, tankC6, noMoveInput,
      normalizeAngle, clamp, jsSign, getForwardVector, Vec3.length, Vec3.lengthSq,
      Vec3.normalize, Vec3.multiplyScalar, Vec3.add, Vec3.zero, piJS, TANK_DAMPING,
      TANK_MAX_SPEED, TANK_TURN_RATE, TURRET_TURN_RATE, TURRET_YAW_MAX, GUN_PITCH_MIN,
      GUN_PITCH_MAX, TANK_ACCELERATION, TANK_REVERSE_FACTOR]
  have hx2 : (updateTankPhysics mC6 tankC6 noMoveInput (2 / 60) none).velocity.x = 14.59 := by
    norm_num [updateTankPhysics, mC6, mZero, tankC6, noMoveInput,
      normalizeAngle, clamp, jsSign, getForwardVector, Vec3.length, Vec3.lengthSq,
      Vec3.normalize, Vec3.multiplyScalar, Vec3.add, Vec3.zero, piJS, TANK_DAMPING,
      TANK_MAX_SPEED, TANK_TURN_RATE, TURRET_TURN_RATE, TURRET_YAW_MAX, GUN_PITCH_MIN,
      GUN_PITCH_MAX, TANK_ACCELERATION, TANK_REVERSE_FACTOR]
  refine ⟨hx1, hx2, fun h => ?_⟩
  rw [h, hx2] at hx1
  norm_num at hx1

/-! Spawn selection (C8). -/

/-- Every candidate point is clamped into the 5-unit-margin map bounds and
carries the terrain height at its own (x, z). -/
theorem spawnCandidateAt_bounds (m : JSMath) (map : GameMapData) (zone : SpawnZone)
    (rand : ℕ → ℚ) (k : ℕ) (hw : 10 ≤ map.width) (hd : 10 ≤ map.depth) :
    -(map.width) / 2 + 5 ≤ (spawnCandidateAt m map zone rand k).x ∧
    (spawnCandidateAt m map zone rand k).x ≤ map.width / 2 - 5 ∧
    -(map.depth) / 2 + 5 ≤ (spawnCandidateAt m map zone rand k).z ∧
    (spawnCandidateAt m map zone rand k).z ≤ map.depth / 2 - 5 ∧
    (spawnCandidateAt m map zone rand k).y =
      MapGenerator.getHeightAt map (spawnCandidateAt m map zone rand k).x
        (spawnCandidateAt m map zone rand k).z := by
  simp only [spawnCandidateAt]
  exact ⟨le_max_left _ _, max_le (by linarith) (min_le_left _ _),
    le_max_left _ _, max_le (by linarith) (min_le_left _ _), trivial⟩

/-- Elements added by one zone's candidate loop are candidate points of
that zone. -/
theorem zoneFold_mem (m : JSMath) (map : GameMapData) (zone : SpawnZone) (rand : ℕ → ℚ)
    (l : List ℕ) : ∀ (acc : List Vec3 × ℕ) (v : Vec3),
    v ∈ (l.foldl (fun acc2 _ =>
      (acc2.1 ++ [spawnCandidateAt m map zone rand acc2.2], acc2.2 + 2)) acc).1 →
    v ∈ acc.1 ∨ ∃ k, v = spawnCandidateAt m map zone rand k := by
  induction l with
  | nil => exact fun acc v hv => Or.inl hv
  | cons a t ih =>
    intro acc v hv
    simp only [List.foldl_cons] at hv
    rcases ih _ v hv with h | h
    · rcases List.mem_append.mp h with h1 | h1
      · exact Or.inl h1
      · simp only [List.mem_singleton] at h1
        exact Or.inr ⟨acc.2, h1⟩
    · exact Or.inr h

/-- One zone's candidate loop adds exactly one point per loop index. -/
theorem zoneFold_length (m : JSMath) (map : GameMapData) (zone : SpawnZone) (rand : ℕ → ℚ)
    (l : List ℕ) : ∀ acc : List Vec3 × ℕ,
    ((l.foldl (fun acc2 _ =>
      (acc2.1 ++ [spawnCandidateAt m map zone rand acc2.2], acc2.2 + 2)) acc).1).length =
      acc.1.length + l.length := by
  induction l with
  | nil => simp
  | cons a t ih =>
    intro acc
    simp [List.foldl_cons, ih]
    omega

/-- Elements of the zone-by-zone candidate fold are candidates of one of
the zones. -/
theorem zonesFold_mem (m : JSMath) (map : GameMapData) (rand : ℕ → ℚ) (ppz : ℕ)
    (zs : List SpawnZone) : ∀ (acc : List Vec3 × ℕ) (v : Vec3),
    v ∈ (zs.foldl (fun acc zone => (List.range ppz).foldl (fun acc2 _ =>
      (acc2.1 ++ [spawnCandidateAt m map zone rand acc2.2], acc2.2 + 2)) acc) acc).1 →
    v ∈ acc.1 ∨ ∃ zone, zone ∈ zs ∧ ∃ k, v = spawnCandidateAt m map zone rand k := by
  induction zs with
  | nil => exact fun acc v hv => Or.inl hv
  | cons z t ih =>
    intro acc v hv
    simp only [List.foldl_cons] at hv
    rcases ih _ v hv with h | h
    · rcases zoneFold_mem m map z rand (List.range ppz) acc v h with h1 | ⟨k, hk⟩
      · exact Or.inl h1
      · exact Or.inr ⟨z, List.mem_cons_self _ _, k, hk⟩
    · rcases h with ⟨zone, hz, hk⟩
      exact Or.inr ⟨zone, List.mem_cons_of_mem _ hz, hk⟩

/-- The zone-by-zone candidate fold adds `ppz` points per zone. -/
theorem zonesFold_length (m : JSMath) (map : GameMapData) (rand : ℕ → ℚ) (ppz : ℕ)
    (zs : List SpawnZone) : ∀ acc : List Vec3 × ℕ,
    ((zs.foldl (fun acc zone => (List.range ppz).foldl (fun acc2 _ =>
      (acc2.1 ++ [spawnCandidateAt m map zone rand acc2.2], acc2.2 + 2)) acc) acc).1).length =
      acc.1.length + zs.length * ppz := by
  induction zs with
  | nil => simp
  | cons z t ih =>
    intro acc
    simp only [List.foldl_cons, ih, zoneFold_length, List.length_range, List.length_cons]
    ring_nf

/-- Every generated candidate is a `spawnCandidateAt` point of one of the
map's zones. -/
theorem generateCandidates_mem (m : JSMath) (map : GameMapData) (rand : ℕ → ℚ) (k0 : ℕ)
    (v : Vec3) (hv : v ∈ (generateCandidates m map rand k0).1) :
    ∃ zone, zone ∈ map.spawnZones ∧ ∃ k, v = spawnCandidateAt m map zone rand k := by
  simp only [generateCandidates] at hv
  rcases zonesFold_mem m map rand _ map.spawnZones ([], k0) v hv with h | h
  · simp at h
  · exact h

/-- With the standard 8 spawn zones there are `8 · ⌈20/8⌉ = 24`
candidates. -/
theorem generateCandidates_length (m : JSMath) (map : GameMapData) (rand : ℕ → ℚ)
    (k0 : ℕ) (hzones : map.spawnZones.length = 8) :
    (generateCandidates m map rand k0).1.length = 24 := by
  simp only [generateCandidates]
  rw [zonesFold_length, hzones]
  norm_num [SPAWN_CANDIDATE_COUNT]

/-- Membership in a descending insertion. -/
theorem mem_insertDescBy {α : Type} (key : α → ℚ) (x a : α) (l : List α) :
    a ∈ insertDescBy key x l ↔ a = x ∨ a ∈ l := by
  induction l with
  | nil => simp [insertDescBy]
  | cons y t ih =>
    simp only [insertDescBy]
    split_ifs
    · simp only [List.mem_cons, ih]
      tauto
    · simp only [List.mem_cons]

/-- The stable descending sort permutes nothing in or out. -/
theorem mem_jsSortDescBy {α : Type} (key : α → ℚ) (a : α) (l : List α) :
    a ∈ jsSortDescBy key l ↔ a ∈ l := by
  suffices h : ∀ (l acc : List α),
      (a ∈ l.foldl (fun acc x => insertDescBy key x acc) acc ↔ a ∈ acc ∨ a ∈ l) by
    simpa [jsSortDescBy] using h l []
  intro l
  induction l with
  | nil => simp
  | cons x t ih =>
    intro acc
    simp only [List.foldl_cons, ih, mem_insertDescBy, List.mem_cons]
    tauto

/-- A descending insertion adds one element. -/
theorem length_insertDescBy {α : Type} (key : α → ℚ) (x : α) (l : List α) :
    (insertDescBy key x l).length = l.length + 1 := by
  induction l with
  | nil => simp [insertDescBy]
  | cons y t ih =>
    simp only [insertDescBy]
    split_ifs
    · simp [ih]
    · simp

/-- The stable descending sort preserves length. -/
theorem length_jsSortDescBy {α : Type} (key : α → ℚ) (l : List α) :
    (jsSortDescBy key l).length = l.length := by
  suffices h : ∀ (l acc : List α),
      (l.foldl (fun acc x => insertDescBy key x acc) acc).length = acc.length + l.length by
    simpa [jsSortDescBy] using h l []
  intro l
  induction l with
  | nil => simp
  | cons x t ih =>
    intro acc
    simp only [List.foldl_cons, ih, length_insertDescBy, List.length_cons]
    omega

/-- `getD` at an index below the length is a member. -/
theorem getD_mem_of_lt {α : Type} (l : List α) (i : ℕ) (d : α) (h : i < l.length) :
    l.getD i d ∈ l := by
  rw [List.getD_eq_getElem?_getD, List.getElem?_eq_getElem h]
  exact List.getElem_mem h

/-- C8 amended: every `selectSpawnPoint` call (given that `Math.random`
draws lie in `[0,1)` and the map has the standard 8 zones and at least the
10-unit-wide bounds) returns a point inside the 5-unit-margin map bounds
whose y is the terrain height at its (x, z); and lying within the spawn
cooldown radius of a recent spawn only subtracts the flat
`SPAWN_WEIGHT_RECENT` penalty from a candidate's score — it is not a
filter, so such a point can still be returned (see the counterexample). -/
theorem selectSpawnPoint_inbounds_penalty_only (m : JSMath) (recent : List Vec3)
    (player : Player) (enemies : List Player) (map : GameMapData) (rand : ℕ → ℚ)
    (k0 : ℕ) (hw : 10 ≤ map.width) (hd : 10 ≤ map.depth)
    (hzones : map.spawnZones.length = 8) (hrand : ∀ i, 0 ≤ rand i ∧ rand i < 1) :
    (-(map.width) / 2 + 5 ≤ (selectSpawnPoint m recent player enemies map rand k0).1.x ∧
     (selectSpawnPoint m recent player enemies map rand k0).1.x ≤ map.width / 2 - 5 ∧
     -(map.depth) / 2 + 5 ≤ (selectSpawnPoint m recent player enemies map rand k0).1.z ∧
     (selectSpawnPoint m recent player enemies map rand k0).1.z ≤ map.depth / 2 - 5 ∧
     (selectSpawnPoint m recent player enemies map rand k0).1.y =
       MapGenerator.getHeightAt map (selectSpawnPoint m recent player enemies map rand k0).1.x
         (selectSpawnPoint m recent player enemies map rand k0).1.z) ∧
    (∀ c : Vec3, (recent.any fun p => c.distanceTo m p < SPAWN_COOLDOWN_RADIUS) = true →
      scoreCandidate m recent c enemies map =
        scoreCandidate m [] c enemies map - SPAWN_WEIGHT_RECENT) := by
  constructor
  · have hmem : ∃ zone, zone ∈ map.spawnZones ∧ ∃ k,
        (selectSpawnPoint m recent player enemies map rand k0).1 =
          spawnCandidateAt m map zone rand k := by
      simp only [selectSpawnPoint]
      set cs := generateCandidates m map rand k0 with hcs
      set scored := cs.1.map (fun point =>
        (point, scoreCandidate m recent point
          (enemies.filter fun e => e.alive && e.id ≠ player.id) map)) with hscored
      set sorted := jsSortDescBy Prod.snd scored with hsorted
      have hlen : sorted.length = 24 := by
        rw [hsorted, length_jsSortDescBy, hscored, List.length_map, hcs,
          generateCandidates_length m map rand k0 hzones]
      have hlen_t : (sorted.take SPAWN_TOP_K).length = 5 := by
        rw [List.length_take, hlen]
        norm_num [SPAWN_TOP_K]
      have hidx : ((⌊rand cs.2 * ((sorted.take SPAWN_TOP_K).length : ℚ)⌋ : ℤ)).toNat <
          (sorted.take SPAWN_TOP_K).length := by
        rw [hlen_t]
        have h0 := (hrand cs.2).1
        have h1 := (hrand cs.2).2
        have hfl : ⌊rand cs.2 * ((5 : ℕ) : ℚ)⌋ < 5 := by
          apply Int.floor_lt.mpr
          push_cast
          nlinarith
        have hge : (0 : ℤ) ≤ ⌊rand cs.2 * ((5 : ℕ) : ℚ)⌋ :=
          Int.floor_nonneg.mpr (by positivity)
        omega
      have hsel : (sorted.take SPAWN_TOP_K).getD
          ((⌊rand cs.2 * ((sorted.take SPAWN_TOP_K).length : ℚ)⌋ : ℤ)).toNat
          (Vec3.zero, 0) ∈ sorted.take SPAWN_TOP_K :=
        getD_mem_of_lt _ _ _ hidx
      have hsorted_mem := List.mem_of_mem_take hsel
      rw [hsorted, mem_jsSortDescBy, hscored] at hsorted_mem
      rcases List.mem_map.mp hsorted_mem with ⟨pt, hpt, heq⟩
      rcases generateCandidates_mem m map rand k0 pt (hcs ▸ hpt) with ⟨zone, hz, k, hk⟩
      exact ⟨zone, hz, k, by rw [← heq]; exact hk⟩
    rcases hmem with ⟨zone, _, k, hk⟩
    rw [hk]
    exact spawnCandidateAt_bounds m map zone rand k hw hd
  · intro c hc
    simp only [scoreCandidate, hc, if_true, List.any_nil, Bool.false_eq_true, if_false]

/-- Witness for the amended spawn claim at a concrete call: the standard
8-zone 400×400 flat map, no enemies, the all-zero draw stream. -/
theorem selectSpawnPoint_inbounds_penalty_only_witness :
    (-(mapC8.width) / 2 + 5 ≤ (selectSpawnPoint mZero [] playerC8 [] mapC8 rand0 0).1.x ∧
     (selectSpawnPoint mZero [] playerC8 [] mapC8 rand0 0).1.x ≤ mapC8.width / 2 - 5 ∧
     -(mapC8.depth) / 2 + 5 ≤ (selectSpawnPoint mZero [] playerC8 [] mapC8 rand0 0).1.z ∧
     (selectSpawnPoint mZero [] playerC8 [] mapC8 rand0 0).1.z ≤ mapC8.depth / 2 - 5 ∧
     (selectSpawnPoint mZero [] playerC8 [] mapC8 rand0 0).1.y =
       MapGenerator.getHeightAt mapC8 (selectSpawnPoint mZero [] playerC8 [] mapC8 rand0 0).1.x
         (selectSpawnPoint mZero [] playerC8 [] mapC8 rand0 0).1.z) ∧
    (∀ c : Vec3, (List.any [] fun p => c.distanceTo mZero p < SPAWN_COOLDOWN_RADIUS) = true →
      scoreCandidate mZero [] c [] mapC8 =
        scoreCandidate mZero [] c [] mapC8 - SPAWN_WEIGHT_RECENT) :=
  selectSpawnPoint_inbounds_penalty_only mZero [] playerC8 [] mapC8 rand0 0
    (by norm_num [mapC8]) (by norm_num [mapC8]) (by rfl)
    (fun i => ⟨le_rfl, by norm_num [rand0]⟩)

/-- Counterexample to C8 as stated: on a map whose only spawn zone sits at
the origin, with the all-zero draw stream, the first call returns the zone
center and the second call returns the same point again — at distance 0,
inside the 20-unit cooldown radius of the most recent previous return.
The cooldown term is a score penalty applied equally to every candidate,
so it cannot prevent the selection. -/
theorem spawn_cooldown_counterexample :
    (runSpawnCalls 2).1 = [Vec3.zero, Vec3.zero] ∧
    Vec3.zero.distanceToSq Vec3.zero <
      SPAWN_COOLDOWN_RADIUS * SPAWN_COOLDOWN_RADIUS := by
  constructor
  · have hr : List.range 20 = [0, 1, 2, 3, 4, 5, 6, 7, 8, 9, 10, 11, 12, 13, 14, 15, 16,
        17, 18, 19] := by decide
    norm_num [runSpawnCalls, selectSpawnPoint, generateCandidates, spawnCandidateAt,
      scoreCandidate, gaussianScore, isPointBetween, jsSortDescBy, insertDescBy,
      MapGenerator.getHeightAt, Vec3.distanceTo, Vec3.distanceToSq, Vec3.zero,
      mC8, mZero, rand0, mapCd, playerC8, Player.new, hr,
      SPAWN_CANDIDATE_COUNT, SPAWN_TOP_K, SPAWN_COOLDOWN_RADIUS, COVER_SEARCH_RADIUS,
      IDEAL_SPAWN_DISTANCE, SPAWN_DISTANCE_SIGMA, SPAWN_WEIGHT_DISTANCE, SPAWN_WEIGHT_LOS,
      SPAWN_WEIGHT_COVER, SPAWN_WEIGHT_FLOW, SPAWN_WEIGHT_RECENT, piJS]
  · norm_num [Vec3.distanceToSq, Vec3.zero, SPAWN_COOLDOWN_RADIUS]

/-! Lethal hit, death event and respawn (C1). -/

/-- Looking a player up after an id-preserving in-place update. -/
theorem findPlayer_updatePlayer (ps : List Player) (id id' : ℕ) (f : Player → Player)
    (hf : ∀ p : Player, p.id = id → (f p).id = p.id) :
    findPlayer (updatePlayer ps id f) id' =
      (findPlayer ps id').map fun p => if p.id = id then f p else p := by
  induction ps with
  | nil => rfl
  | cons p t ih =>
    have hq : (if p.id = id then f p else p).id = p.id := by
      split_ifs with h
      · exact hf p h
      · rfl
    simp only [updatePlayer, findPlayer, List.map_cons] at *
    by_cases hp : p.id = id'
    · rw [List.find?_cons_of_pos _ (by simp only [decide_eq_true_eq]; rw [hq]; exact hp),
        List.find?_cons_of_pos _ (by simp [hp])]
      rfl
    · rw [List.find?_cons_of_neg _ (by simp [hq, hp]),
        List.find?_cons_of_neg _ (by simp [hp])]
      exact ih

/-- Updating one id leaves lookups of other ids unchanged. -/
theorem findPlayer_updatePlayer_ne (ps : List Player) (id id' : ℕ) (f : Player → Player)
    (hf : ∀ p : Player, p.id = id → (f p).id = p.id) (hne : id' ≠ id) :
    findPlayer (updatePlayer ps id f) id' = findPlayer ps id' := by
  rw [findPlayer_updatePlayer ps id id' f hf]
  cases h : findPlayer ps id' with
  | none => rfl
  | some q =>
    have hid : q.id = id' := by simpa using List.find?_some h
    simp [hid, hne]

/-- Updating the looked-up id applies the update to the found player. -/
theorem findPlayer_updatePlayer_self (ps : List Player) (id : ℕ) (f : Player → Player)
    (p : Player) (hf : ∀ q : Player, q.id = id → (f q).id = q.id)
    (h : findPlayer ps id = some p) :
    findPlayer (updatePlayer ps id f) id = some (f p) := by
  have hid : p.id = id := by simpa using List.find?_some h
  rw [findPlayer_updatePlayer ps id id f hf, h]
  simp [hid]

/-- An id-preserving update keeps the id list. -/
theorem updatePlayer_map_id (ps : List Player) (id : ℕ) (f : Player → Player)
    (hf : ∀ p : Player, p.id = id → (f p).id = p.id) :
    (updatePlayer ps id f).map Player.id = ps.map Player.id := by
  simp only [updatePlayer, List.map_map]
  apply List.map_congr_left
  intro p _
  simp only [Function.comp_apply]
  split_ifs with h
  · exact hf p h
  · rfl

/-- A splash loop in which every player is skipped leaves the world
unchanged. -/
theorem foldl_splash_id (m : JSMath) (proj : Projectile) (dh : Option ℕ) :
    ∀ (ids : List ℕ) (w0 : WorldState),
      (∀ pid ∈ ids, splashOne m proj dh w0 pid = w0) →
      ids.foldl (splashOne m proj dh) w0 = w0 := by
  intro ids
  induction ids with
  | nil => exact fun w0 _ => rfl
  | cons a t ih =>
    intro w0 h
    rw [List.foldl_cons, h a (List.mem_cons_self _ _)]
    exact ih w0 fun pid hp => h pid (List.mem_cons_of_mem _ hp)

/-- While its sole entry's timer has not run out, a respawn tick only
decrements that timer. -/
theorem iterateRespawn_pending (sp : ℕ → Vec3) (yaw : ℕ → ℚ) (n : ℕ) :
    ∀ (w0 : WorldState) (pid : ℕ) (T : ℚ), w0.respawnQueue = [⟨pid, T⟩] →
      (n : ℚ) * TICK_INTERVAL < T →
      iterateRespawn sp yaw n w0 =
        { w0 with respawnQueue := [⟨pid, T - n * TICK_INTERVAL⟩] } := by
  induction n with
  | zero =>
    intro w0 pid T hq _
    simp only [iterateRespawn, Nat.cast_zero, zero_mul, sub_zero, ← hq]
  | succ n ih =>
    intro w0 pid T hq hlt
    have hTI : (0 : ℚ) < TICK_INTERVAL := by norm_num [TICK_INTERVAL]
    have hn0 : (0 : ℚ) ≤ (n : ℚ) := Nat.cast_nonneg n
    have hcast : ((n + 1 : ℕ) : ℚ) = (n : ℚ) + 1 := by push_cast; ring
    rw [hcast] at hlt
    have hpos : ¬ (T - TICK_INTERVAL ≤ 0) := by nlinarith
    have hlt2 : TICK_INTERVAL < T := by linarith
    have hstep : updateRespawnQueue w0 TICK_INTERVAL sp yaw =
        { w0 with respawnQueue := [⟨pid, T - TICK_INTERVAL⟩] } := by
      simp [updateRespawnQueue, hq, List.filter, hpos, hlt2]
    have harith : T - TICK_INTERVAL - (n : ℚ) * TICK_INTERVAL =
        T - ((n + 1 : ℕ) : ℚ) * TICK_INTERVAL := by
      push_cast
      ring
    calc iterateRespawn sp yaw (n + 1) w0
        = iterateRespawn sp yaw n (updateRespawnQueue w0 TICK_INTERVAL sp yaw) := rfl
      _ = { w0 with respawnQueue := [⟨pid, T - TICK_INTERVAL - (n : ℚ) * TICK_INTERVAL⟩] } := by
          rw [hstep]
          exact ih _ pid (T - TICK_INTERVAL) rfl (by linarith)
      _ = { w0 with respawnQueue := [⟨pid, T - ((n + 1 : ℕ) : ℚ) * TICK_INTERVAL⟩] } := by
          rw [harith]

/-- Peeling the last tick off a respawn iteration. -/
theorem iterateRespawn_succ_right (sp : ℕ → Vec3) (yaw : ℕ → ℚ) (n : ℕ) :
    ∀ w0 : WorldState, iterateRespawn sp yaw (n + 1) w0 =
      updateRespawnQueue (iterateRespawn sp yaw n w0) TICK_INTERVAL sp yaw := by
  induction n with
  | zero => exact fun w0 => rfl
  | succ n ih =>
    intro w0
    calc iterateRespawn sp yaw (n + 2) w0
        = iterateRespawn sp yaw (n + 1) (updateRespawnQueue w0 TICK_INTERVAL sp yaw) := rfl
      _ = updateRespawnQueue (iterateRespawn sp yaw (n + 1) w0) TICK_INTERVAL sp yaw := ih _

/-- The tick on which the sole entry's timer runs out pops it and respawns
its player. -/
theorem updateRespawnQueue_expire (w0 : WorldState) (pid : ℕ) (t : ℚ) (sp : ℕ → Vec3)
    (yaw : ℕ → ℚ) (hq : w0.respawnQueue = [⟨pid, t⟩]) (ht : t - TICK_INTERVAL ≤ 0) :
    updateRespawnQueue w0 TICK_INTERVAL sp yaw =
      { players := updatePlayer w0.players pid fun p => p.respawn (sp pid) (yaw pid),
        respawnQueue := [],
        events := w0.events ++ [GameEvent.respawn pid (sp pid)] } := by
  have h2 : ¬ TICK_INTERVAL < t := by linarith
  simp [updateRespawnQueue, hq, List.filter, ht, h2]

/-- C1: a direct hit that brings a live combatant's health to 0 emits
exactly one death event for that victim, increments the shooter's kills
and the victim's deaths by exactly one each, and — from a world whose
respawn queue was empty at the death and in which no third combatant is in
splash range of the explosion — the victim is still dead after every
number of ticks whose elapsed time is strictly below `RESPAWN_DELAY`, and
is alive again with full health after 240 ticks, the first tick count
whose elapsed time reaches `RESPAWN_DELAY` (240 · TICK_INTERVAL =
RESPAWN_DELAY exactly; the death tick itself already counts down). -/
theorem lethal_hit_one_death_then_respawn (m : JSMath) (w : WorldState)
    (proj : Projectile) (targetId : ℕ) (victim shooter : Player) (sp : ℕ → Vec3)
    (yaw : ℕ → ℚ)
    (hvictim : findPlayer w.players targetId = some victim)
    (halive : victim.alive = true)
    (hhp : victim.hp ≤ DIRECT_HIT_DAMAGE)
    (hshooter : findPlayer w.players proj.shooterId = some shooter)
    (hne : proj.shooterId ≠ targetId)
    (hqueue : w.respawnQueue = [])
    (hsplash : ∀ p ∈ w.players, p.id ≠ targetId → p.id ≠ proj.shooterId →
      ¬ (0 < calculateSplashDamage m proj.position p.position)) :
    ((handleDirectHit m w proj targetId).events.countP (GameEvent.isDeathOf targetId) =
      w.events.countP (GameEvent.isDeathOf targetId) + 1) ∧
    (∃ s, findPlayer (handleDirectHit m w proj targetId).players proj.shooterId = some s ∧
      s.kills = shooter.kills + 1) ∧
    (∃ v, findPlayer (handleDirectHit m w proj targetId).players targetId = some v ∧
      v.deaths = victim.deaths + 1 ∧ v.alive = false ∧ v.hp = 0) ∧
    (∀ n : ℕ, n < 240 →
      ∃ v, findPlayer (iterateRespawn sp yaw n (handleDirectHit m w proj targetId)).players
        targetId = some v ∧ v.alive = false) ∧
    (∃ v, findPlayer (iterateRespawn sp yaw 240 (handleDirectHit m w proj targetId)).players
      targetId = some v ∧ v.alive = true ∧ v.hp = TANK_MAX_HP) ∧
    ((240 : ℚ) * TICK_INTERVAL = RESPAWN_DELAY ∧
      ∀ n : ℕ, n < 240 → (n : ℚ) * TICK_INTERVAL < RESPAWN_DELAY) := by
  have hvid : victim.id = targetId := by simpa using List.find?_some hvictim
  have hsid : shooter.id = proj.shooterId := by simpa using List.find?_some hshooter
  have hne' : targetId ≠ proj.shooterId := Ne.symm hne
  have hfhits : ∀ p : Player, p.id = proj.shooterId →
      ((fun s : Player => { s with hits := s.hits + 1 }) p).id = p.id := fun _ _ => rfl
  have hfdead : ∀ p : Player, p.id = targetId →
      ((fun _ : Player => Player.deadOf victim) p).id = p.id := by
    intro p hp
    simp [Player.deadOf, hvid, hp]
  have hfdeaths : ∀ p : Player, p.id = targetId →
      ((fun v : Player => { v with deaths := v.deaths + 1 }) p).id = p.id := fun _ _ => rfl
  have hfkills : ∀ p : Player, p.id = proj.shooterId →
      ((fun k : Player => { k with kills := k.kills + 1 }) p).id = p.id := fun _ _ => rfl
  -- players after the successive in-place updates of the damage pipeline
  have hfind1 : findPlayer (updatePlayer w.players proj.shooterId
      fun s => { s with hits := s.hits + 1 }) targetId = some victim := by
    rw [findPlayer_updatePlayer_ne _ _ _ _ hfhits hne']
    exact hvictim
  have hfind2 : findPlayer (updatePlayer (updatePlayer w.players proj.shooterId
      fun s => { s with hits := s.hits + 1 }) targetId
      fun _ => Player.deadOf victim) targetId = some (Player.deadOf victim) :=
    findPlayer_updatePlayer_self _ _ _ victim hfdead hfind1
  have hfind3 : findPlayer (updatePlayer (updatePlayer (updatePlayer w.players proj.shooterId
      fun s => { s with hits := s.hits + 1 }) targetId
      fun _ => Player.deadOf victim) targetId
      fun v => { v with deaths := v.deaths + 1 }) targetId =
      some { Player.deadOf victim with deaths := victim.deaths + 1 } :=
    findPlayer_updatePlayer_self _ _ _ _ hfdeaths hfind2
  have hfind4t : findPlayer (updatePlayer (updatePlayer (updatePlayer
      (updatePlayer w.players proj.shooterId fun s => { s with hits := s.hits + 1 })
      targetId fun _ => Player.deadOf victim) targetId
      fun v => { v with deaths := v.deaths + 1 }) proj.shooterId
      fun k => { k with kills := k.kills + 1 }) targetId =
      some { Player.deadOf victim with deaths := victim.deaths + 1 } := by
    rw [findPlayer_updatePlayer_ne _ _ _ _ hfkills hne']
    exact hfind3
  have hfind1s : findPlayer (updatePlayer w.players proj.shooterId
      fun s => { s with hits := s.hits + 1 }) proj.shooterId =
      some { shooter with hits := shooter.hits + 1 } :=
    findPlayer_updatePlayer_self _ _ _ shooter hfhits hshooter
  have hfind2s : findPlayer (updatePlayer (updatePlayer w.players proj.shooterId
      fun s => { s with hits := s.hits + 1 }) targetId
      fun _ => Player.deadOf victim) proj.shooterId =
      some { shooter with hits := shooter.hits + 1 } := by
    rw [findPlayer_updatePlayer_ne _ _ _ _ hfdead hne]
    exact hfind1s
  have hfind3s : findPlayer (updatePlayer (updatePlayer (updatePlayer w.players proj.shooterId
      fun s => { s with hits := s.hits + 1 }) targetId
      fun _ => Player.deadOf victim) targetId
      fun v => { v with deaths := v.deaths + 1 }) proj.shooterId =
      some { shooter with hits := shooter.hits + 1 } := by
    rw [findPlayer_updatePlayer_ne _ _ _ _ hfdeaths hne]
    exact hfind2s
  have hfind4s : findPlayer (updatePlayer (updatePlayer (updatePlayer
      (updatePlayer w.players proj.shooterId fun s => { s with hits := s.hits + 1 })
      targetId fun _ => Player.deadOf victim) targetId
      fun v => { v with deaths := v.deaths + 1 }) proj.shooterId
      fun k => { k with kills := k.kills + 1 }) proj.shooterId =
      some { shooter with hits := shooter.hits + 1, kills := shooter.kills + 1 } :=
    findPlayer_updatePlayer_self _ _ _ _ hfkills hfind3s
  have hmax0 : max 0 (victim.hp - DIRECT_HIT_DAMAGE) = 0 := max_eq_left (by linarith)
  have htd : victim.takeDamage DIRECT_HIT_DAMAGE = (true, Player.deadOf victim) := by
    simp [Player.takeDamage, Player.deadOf, halive, hmax0]
  -- the lethal direct hit, computed
  have hW : handleDirectHit m w proj targetId =
      { players := updatePlayer (updatePlayer (updatePlayer
          (updatePlayer w.players proj.shooterId fun s => { s with hits := s.hits + 1 })
          targetId fun _ => Player.deadOf victim) targetId
          fun v => { v with deaths := v.deaths + 1 }) proj.shooterId
          fun k => { k with kills := k.kills + 1 },
        respawnQueue := [⟨targetId, RESPAWN_DELAY⟩],
        events := ((w.events ++
          [GameEvent.hit proj.id targetId proj.position DIRECT_HIT_DAMAGE]) ++
          [GameEvent.death targetId proj.shooterId victim.position]) ++
          [GameEvent.explode proj.id proj.position SPLASH_RADIUS] } := by
    simp only [handleDirectHit, hfind1, htd, if_true, handleDeath, hfind4t,
      handleProjectileExplode, hqueue, List.nil_append, Option.map_some]
    apply foldl_splash_id
    intro pid hpid
    rw [updatePlayer_map_id _ _ _ hfkills, updatePlayer_map_id _ _ _ hfdeaths,
      updatePlayer_map_id _ _ _ hfdead, updatePlayer_map_id _ _ _ hfhits] at hpid
    rcases List.mem_map.mp hpid with ⟨p0, hp0, rfl⟩
    by_cases hids : p0.id = proj.shooterId
    · cases hf : findPlayer (updatePlayer (updatePlayer (updatePlayer
          (updatePlayer w.players proj.shooterId fun s => { s with hits := s.hits + 1 })
          targetId fun _ => Player.deadOf victim) targetId
          fun v => { v with deaths := v.deaths + 1 }) proj.shooterId
          fun k => { k with kills := k.kills + 1 }) p0.id with
      | none => simp [splashOne, hf]
      | some q =>
        unfold splashOne
        rw [hf]
        simp [hids]
    · by_cases hidt : p0.id = targetId
      · cases hf : findPlayer (updatePlayer (updatePlayer (updatePlayer
            (updatePlayer w.players proj.shooterId fun s => { s with hits := s.hits + 1 })
            targetId fun _ => Player.deadOf victim) targetId
            fun v => { v with deaths := v.deaths + 1 }) proj.shooterId
            fun k => { k with kills := k.kills + 1 }) p0.id with
        | none => simp [splashOne, hf]
        | some q =>
          unfold splashOne
          rw [hf]
          simp [hidt]
      · cases hf : findPlayer (updatePlayer (updatePlayer (updatePlayer
            (updatePlayer w.players proj.shooterId fun s => { s with hits := s.hits + 1 })
            targetId fun _ => Player.deadOf victim) targetId
            fun v => { v with deaths := v.deaths + 1 }) proj.shooterId
            fun k => { k with kills := k.kills + 1 }) p0.id with
        | none => simp [splashOne, hf]
        | some q =>
          have hfw : findPlayer w.players p0.id = some q := by
            rw [findPlayer_updatePlayer_ne _ _ _ _ hfkills hids,
              findPlayer_updatePlayer_ne _ _ _ _ hfdeaths hidt,
              findPlayer_updatePlayer_ne _ _ _ _ hfdead hidt,
              findPlayer_updatePlayer_ne _ _ _ _ hfhits hids] at hf
            exact hf
          have hqmem : q ∈ w.players := List.mem_of_find?_eq_some hfw
          have hqid : q.id = p0.id := by simpa using List.find?_some hfw
          have hnosplash := hsplash q hqmem (hqid ▸ hidt) (hqid ▸ hids)
          have hidt2 : ¬ (targetId = p0.id) := fun h => hidt h.symm
          by_cases hal : q.alive
          · simp [splashOne, hf, hal, hnosplash, hids, hidt2]
          · simp [splashOne, hf, hal, hids, hidt2]
  refine ⟨?_, ?_, ?_, ?_, ?_, ?_, ?_⟩
  · rw [hW]
    simp [List.countP_append, GameEvent.isDeathOf]
  · rw [hW]
    exact ⟨_, hfind4s, rfl⟩
  · rw [hW]
    exact ⟨_, hfind4t, rfl, rfl, rfl⟩
  · intro n hn
    rw [hW]
    have hn' : (n : ℚ) ≤ 239 := by
      exact_mod_cast Nat.le_of_lt_succ hn
    have hcond : (n : ℚ) * TICK_INTERVAL < RESPAWN_DELAY := by
      have := mul_le_mul_of_nonneg_right hn' (by norm_num [TICK_INTERVAL] : (0 : ℚ) ≤ TICK_INTERVAL)
      norm_num [TICK_INTERVAL, RESPAWN_DELAY] at this ⊢
      linarith
    rw [iterateRespawn_pending sp yaw n _ targetId RESPAWN_DELAY rfl hcond]
    exact ⟨_, hfind4t, rfl⟩
  · rw [hW]
    rw [show (240 : ℕ) = 239 + 1 from rfl, iterateRespawn_succ_right]
    rw [iterateRespawn_pending sp yaw 239 _ targetId RESPAWN_DELAY rfl
      (by norm_num [TICK_INTERVAL, RESPAWN_DELAY])]
    rw [updateRespawnQueue_expire _ targetId _ sp yaw rfl
      (by norm_num [TICK_INTERVAL, RESPAWN_DELAY])]
    exact ⟨_, findPlayer_updatePlayer_self _ _ _ _ (fun _ _ => rfl) hfind4t, rfl, rfl⟩
  · norm_num [TICK_INTERVAL, RESPAWN_DELAY]
  · intro n hn
    have hn' : (n : ℚ) ≤ 239 := by
      exact_mod_cast Nat.le_of_lt_succ hn
    have := mul_le_mul_of_nonneg_right hn' (by norm_num [TICK_INTERVAL] : (0 : ℚ) ≤ TICK_INTERVAL)
    norm_num [TICK_INTERVAL, RESPAWN_DELAY] at this ⊢
    linarith

/-- Witness for the lethal-hit claim: shooter 1 (4 kills) and victim 2
(15 hp, 3 deaths) in an otherwise empty world; the hit kills, the counters
move by one, and the victim is back at full health after exactly 240
ticks. -/
theorem lethal_hit_one_death_then_respawn_witness :
    ((handleDirectHit mZero worldC1 projC1 2).events.countP (GameEvent.isDeathOf 2) =
      worldC1.events.countP (GameEvent.isDeathOf 2) + 1) ∧
    (∃ s, findPlayer (handleDirectHit mZero worldC1 projC1 2).players projC1.shooterId =
      some s ∧ s.kills = shooterC1.kills + 1) ∧
    (∃ v, findPlayer (handleDirectHit mZero worldC1 projC1 2).players 2 = some v ∧
      v.deaths = victimC1.deaths + 1 ∧ v.alive = false ∧ v.hp = 0) ∧
    (∀ n : ℕ, n < 240 →
      ∃ v, findPlayer (iterateRespawn (fun _ => ⟨5, 0, 5⟩) (fun _ => 0) n
        (handleDirectHit mZero worldC1 projC1 2)).players 2 = some v ∧ v.alive = false) ∧
    (∃ v, findPlayer (iterateRespawn (fun _ => ⟨5, 0, 5⟩) (fun _ => 0) 240
      (handleDirectHit mZero worldC1 projC1 2)).players 2 = some v ∧
      v.alive = true ∧ v.hp = TANK_MAX_HP) ∧
    ((240 : ℚ) * TICK_INTERVAL = RESPAWN_DELAY ∧
      ∀ n : ℕ, n < 240 → (n : ℚ) * TICK_INTERVAL < RESPAWN_DELAY) :=
  lethal_hit_one_death_then_respawn mZero worldC1 projC1 2 victimC1 shooterC1
    (fun _ => ⟨5, 0, 5⟩) (fun _ => 0) rfl rfl
    (by norm_num [victimC1, Player.new, DIRECT_HIT_DAMAGE]) rfl (by decide) rfl
    (by
      intro p hp h2 h1
      simp only [worldC1, List.mem_cons, List.not_mem_nil, or_false] at hp
      rcases hp with rfl | rfl
      · exact absurd rfl h1
      · exact absurd rfl h2)

end TankGame
